import Mathlib

/-!
Verification development for the per-server health monitor
(src/lib/core/sdam/monitor.js) and the read-preference validator
(src/lib/read_preference.js) of the node-mongodb-native fork.

The JavaScript sources are shallowly embedded as executable Lean
definitions.  Machine integers are modelled as Nat/Int (no overflow is
relevant: all quantities are small millisecond counts), fallible code
returns Except, asynchronous callbacks become explicit completion
functions, and the event-emitter surface becomes an explicit action list
returned by each operation.
-/

set_option maxHeartbeats 1000000

/-! ## Read preference (src/lib/read_preference.js) -/

/-- Tag documents are opaque for the purposes of this development; only
their identity and the length of a tag array matter. -/
abbrev Tag := String

/-- Value of the `mode` argument as the JavaScript code can see it:
`undefined`, `null`, or a string. -/
inductive ModeArg where
  | undef
  | null
  | str (s : String)
deriving DecidableEq

/-- A hedge document (`options.hedge`).  Presence of the document is what
matters for truthiness: any object is truthy in JavaScript. -/
structure HedgeDoc where
  enabled : Option Bool
deriving DecidableEq

/-- The fields of an options object that read_preference.js reads.
`maxStalenessSeconds = none` covers both `undefined` and `null`, which the
source treats identically via its loose `!= null` test. -/
structure RPOptions where
  maxStalenessSeconds : Option Int := none
  hedge : Option HedgeDoc := none
deriving DecidableEq

/-- Value of the `tags` argument: `undefined`, `null`, an array, a
non-array object (carrying options fields), or a primitive of the given
truthiness. -/
inductive TagsArg where
  | undef
  | null
  | arr (ts : List Tag)
  | obj (o : RPOptions)
  | prim (truthy : Bool)
deriving DecidableEq

/-- Value of the `options` argument: `undefined`, `null`, or an object. -/
inductive OptionsArg where
  | undef
  | null
  | obj (o : RPOptions)
deriving DecidableEq

/-- JavaScript `typeof tags === 'object'` (true for null, arrays and
objects). -/
def typeofIsObject : TagsArg → Bool
  | TagsArg.null => true
  | TagsArg.arr _ => true
  | TagsArg.obj _ => true
  | _ => false

/-- JavaScript `Array.isArray(tags)`. -/
def tagsIsArray : TagsArg → Bool
  | TagsArg.arr _ => true
  | _ => false

/-- JavaScript truthiness of the `tags` argument (arrays and objects are
always truthy, `undefined` and `null` are falsy). -/
def tagsTruthy : TagsArg → Bool
  | TagsArg.undef => false
  | TagsArg.null => false
  | TagsArg.arr _ => true
  | TagsArg.obj _ => true
  | TagsArg.prim b => b

/-- Reinterpretation of a second argument of object type as the options
argument (the `options = tags` assignment in the constructor). -/
def optionsFromTags : TagsArg → OptionsArg
  | TagsArg.obj o => OptionsArg.obj o
  | TagsArg.null => OptionsArg.null
  | _ => OptionsArg.undef

/-- The constructed ReadPreference object with the fields assigned by the
source constructor. -/
structure ReadPreference where
  mode : ModeArg
  tags : TagsArg
  hedge : Option HedgeDoc
  maxStalenessSeconds : Option Int
  minWireVersion : Option Nat
deriving DecidableEq

/-- The `VALID_MODES` list of read_preference.js: the five mode strings
and, deliberately, `null`. -/
def VALID_MODES : List ModeArg :=
  [ModeArg.str "primary", ModeArg.str "primaryPreferred", ModeArg.str "secondary",
   ModeArg.str "secondaryPreferred", ModeArg.str "nearest", ModeArg.null]

/-- `ReadPreference.isValid`: membership in `VALID_MODES` (an `indexOf`
test in the source). -/
def ReadPreference.isValid (mode : ModeArg) : Bool :=
  decide (mode ∈ VALID_MODES)

/-- The `this.tags && Array.isArray(this.tags) && this.tags.length > 0`
test of the primary-mode tag check. -/
def tagsNonEmptyArray : TagsArg → Bool
  | TagsArg.arr ts => decide (ts.length > 0)
  | _ => false

/-- Field assignment and validation section of the constructor (source
lines 28-57 after the argument normalization): assigns `mode`, `tags`,
`hedge`, processes `maxStalenessSeconds`, then runs the `primary`
compatibility checks in source order. -/
def ReadPreference.primaryChecks (rp : ReadPreference) : Except String ReadPreference :=
  if rp.mode = ModeArg.str "primary" then
    if tagsNonEmptyArray rp.tags = true then
      Except.error "Primary read preference cannot be combined with tags"
    else if rp.maxStalenessSeconds.isSome then
      Except.error "Primary read preference cannot be combined with maxStalenessSeconds"
    else if rp.hedge.isSome then
      Except.error "Primary read preference cannot be combined with hedge"
    else
      Except.ok rp
  else
    Except.ok rp

/-- Body of the constructor after argument normalization: `this.mode`,
`this.tags` and `this.hedge` assignments, the `maxStalenessSeconds`
validation (with `minWireVersion = 5` when set), then the primary-mode
checks. -/
def ReadPreference.assign (mode : ModeArg) (tags : TagsArg) (options : OptionsArg) :
    Except String ReadPreference :=
  let hedge : Option HedgeDoc :=
    match options with
    | OptionsArg.obj o => o.hedge
    | _ => none
  let optionsEff : RPOptions :=
    match options with
    | OptionsArg.obj o => o
    | _ => {}
  let base : ReadPreference :=
    { mode := mode, tags := tags, hedge := hedge,
      maxStalenessSeconds := none, minWireVersion := none }
  match optionsEff.maxStalenessSeconds with
  | some n =>
    if n ≤ 0 then
      Except.error "maxStalenessSeconds must be a positive integer"
    else
      ReadPreference.primaryChecks
        { base with maxStalenessSeconds := some n, minWireVersion := some 5 }
  | none => ReadPreference.primaryChecks base

/-- The `ReadPreference` constructor (source lines 17-58).  Mode
validation, then the argument normalization: a second argument of object
type with no third argument is moved into the options position; otherwise
a truthy non-array second argument is rejected. -/
def ReadPreference.make (mode : ModeArg) (tags0 : TagsArg) (options0 : OptionsArg) :
    Except String ReadPreference :=
  if ReadPreference.isValid mode = false then
    Except.error "Invalid read preference mode"
  else if options0 = OptionsArg.undef ∧ typeofIsObject tags0 = true ∧ tagsIsArray tags0 = false then
    ReadPreference.assign mode TagsArg.undef (optionsFromTags tags0)
  else if tagsTruthy tags0 = true ∧ tagsIsArray tags0 = false then
    Except.error "ReadPreference tags must be an array"
  else
    ReadPreference.assign mode tags0 options0

/-- `ReadPreference.prototype.equals`: strict equality of the `mode`
fields only. -/
def ReadPreference.equals (self other : ReadPreference) : Bool :=
  decide (other.mode = self.mode)

/-- Does an `Except` hold a success value. -/
def isOkE {ε α : Type} : Except ε α → Bool
  | Except.ok _ => true
  | Except.error _ => false

/-! ## Monitor (src/lib/core/sdam/monitor.js) -/

/-- Monitor lifecycle states (source lines 24-27). -/
inductive MState where
  | closed
  | closing
  | idle
  | monitoring
deriving DecidableEq

/-- Modelled from the spec: the role of a server as the topology layer
records it (the `ServerType` enumeration lives in lib/core/sdam/common.js,
which is not among the sources; the spec, section 1, names the roles
primary, secondary and unknown, and monitor.js only ever compares against
`ServerType.Unknown`). -/
inductive ServerType where
  | primary
  | secondary
  | unknown
deriving DecidableEq

/-- Kind of an armed timer: one armed by `rescheduleMonitoring` (whose
callback clears the `kMonitorId` field before calling `requestCheck`) or
one armed by `reset()` (whose callback calls `requestCheck` directly). -/
inductive TimerKind where
  | reschedule
  | fromReset
deriving DecidableEq

/-- An armed `setTimeout` timer.  `delay = none` models a call with an
`undefined` delay (`rescheduleMonitoring(monitor)` with no second
argument), which fires essentially immediately. -/
structure Timer where
  id : Nat
  kind : TimerKind
  delay : Option Nat
deriving DecidableEq

/-- How a heartbeat round performs its work: through `connect` (no private
connection existed) or through `Connection.command` on the existing
private connection (awaitable when a topology version was known). -/
inductive RoundMode where
  | viaConnect
  | viaCommand (awaitable : Bool)
deriving DecidableEq

/-- An in-flight heartbeat round: started by `checkServer`, its callback
not yet run.  `cancelled` records that `reset()`/`close()` signalled the
cancellation token and forcibly destroyed the private connection while the
round was in flight. -/
structure Round where
  id : Nat
  mode : RoundMode
  cancelled : Bool
deriving DecidableEq

/-- A topology version as stored in a server description. -/
structure TopologyVersion where
  processId : Nat
  counter : Nat
deriving DecidableEq

/-- An ismaster reply, reduced to the single field the monitor inspects
on the scheduling path. -/
structure IsMasterReply where
  topologyVersion : Option TopologyVersion
deriving DecidableEq

/-- Observable actions of a monitor operation: events emitted on the
monitor or on the cancellation token, and destruction of the private
connection. -/
inductive MAction where
  | emitMonitoring
  | emitHeartbeatStarted
  | emitHeartbeatSucceeded
  | emitHeartbeatFailed
  | emitResetServer
  | emitResetConnectionPool
  | emitClose
  | emitCancel
  | destroyConnection (force : Bool)
deriving DecidableEq

/-- The monitor state.  `conn = some d` means the private connection
object is present, with `d` recording whether it has been destroyed
(reset/close destroy it without clearing the field).  `monitorId` is the
value of the `kMonitorId` field — note that `clearTimeout` cancels the
timer but does not clear the field; only the reschedule-timer callback
assigns `undefined` to it.  `timers` is the list of actually armed
timers and `rounds` the list of in-flight heartbeat rounds; that each of
these lists has at most one element is an emergent property, not a
constraint of the model. -/
structure Monitor where
  state : MState
  conn : Option Bool
  monitorId : Option Nat
  timers : List Timer
  rounds : List Round
  nextTimerId : Nat
  nextRoundId : Nat
  lastCheckTime : Option Nat
  connectTimeoutMS : Nat
  heartbeatFrequencyMS : Nat
  minHeartbeatFrequencyMS : Nat
deriving DecidableEq

/-- A freshly constructed monitor (constructor lines 38-88): state
`closed`, no connection, no timer, no round, `kLastCheckTime` unset. -/
def initMonitor (connectTimeoutMS heartbeatFrequencyMS minHeartbeatFrequencyMS : Nat) : Monitor :=
  { state := MState.closed, conn := none, monitorId := none, timers := [], rounds := [],
    nextTimerId := 0, nextRoundId := 0, lastCheckTime := none,
    connectTimeoutMS := connectTimeoutMS, heartbeatFrequencyMS := heartbeatFrequencyMS,
    minHeartbeatFrequencyMS := minHeartbeatFrequencyMS }

/-- The transition table passed to `makeStateMachine` (source lines
28-33). -/
def legalTransitions : MState → List MState
  | MState.closing => [MState.closing, MState.idle, MState.closed]
  | MState.closed => [MState.closed, MState.monitoring]
  | MState.idle => [MState.idle, MState.monitoring, MState.closing]
  | MState.monitoring => [MState.monitoring, MState.idle, MState.closing]

/-- Modelled from the spec: `makeStateMachine` lives in
lib/core/utils.js, which is not among the sources.  The transition table
itself is source (monitor.js lines 28-33); the spec, section 4.1, states
that transitions outside the table are rejected as no-ops. -/
def stateTransition (m : Monitor) (newState : MState) : Monitor :=
  if newState ∈ legalTransitions m.state then { m with state := newState } else m

/-- Modelled from the spec: `calculateDurationInMs` lives in
lib/core/utils.js, which is not among the sources.  Per the spec
(sections 4.3 and 9) it is the elapsed time on a monotonic clock since
the stamped timestamp; an unset timestamp behaves as the process origin
(time zero), matching an undefined argument to `process.hrtime`. -/
def calculateDurationInMs (now : Nat) (started : Option Nat) : Nat :=
  now - started.getD 0

/-- JavaScript `clearTimeout(i)`: disarm the timer with the given id, if
any; `clearTimeout(undefined)` is a no-op.  The stored field value is not
touched. -/
def jsClearTimeout (m : Monitor) (i : Option Nat) : Monitor :=
  match i with
  | some v => { m with timers := m.timers.filter (fun t => decide (t.id ≠ v)) }
  | none => m

/-- JavaScript `setTimeout`: arm a fresh timer and return its id. -/
def jsSetTimeout (m : Monitor) (kind : TimerKind) (delay : Option Nat) : Monitor × Nat :=
  ({ m with
      timers := m.timers ++ [{ id := m.nextTimerId, kind := kind, delay := delay }],
      nextTimerId := m.nextTimerId + 1 }, m.nextTimerId)

/-- `rescheduleMonitoring(monitor, ms)` (source lines 272-287): bail in
closing/closed, transition to idle, clear the timer named by the
`kMonitorId` field, stamp `kLastCheckTime`, and arm a reschedule timer
with the given delay (possibly undefined), storing its id in the field. -/
def rescheduleMonitoring (m : Monitor) (now : Nat) (ms : Option Nat) : Monitor :=
  if m.state = MState.closing ∨ m.state = MState.closed then m
  else
    let m1 := stateTransition m MState.idle
    let m2 := jsClearTimeout m1 m1.monitorId
    let m3 := { m2 with lastCheckTime := some now }
    let p := jsSetTimeout m3 TimerKind.reschedule ms
    { p.1 with monitorId := some p.2 }

/-- The callback `monitorServer` passes to `checkServer` (source lines
254-269).  On error with a server type other than Unknown it reschedules
with an undefined delay; when streaming is indicated by the reply it
likewise reschedules with an undefined delay; otherwise it reschedules
after `heartbeatFrequencyMS`.  On error the callback receives no reply,
so `isMaster = none`. -/
def monitorServerCallback (m : Monitor) (now : Nat) (err : Bool) (serverType : ServerType)
    (isMaster : Option IsMasterReply) : Monitor :=
  if err = true ∧ serverType ≠ ServerType.unknown then
    rescheduleMonitoring m now none
  else if (isMaster.map (fun r => r.topologyVersion.isSome)).getD false = true then
    rescheduleMonitoring m now none
  else
    rescheduleMonitoring m now (some m.heartbeatFrequencyMS)

/-- The ismaster command document `checkServer` issues on an existing
connection, reduced to the fields beyond the constant `ismaster: true`. -/
structure IsMasterCmd where
  maxAwaitTimeMS : Option Nat
  topologyVersion : Option TopologyVersion
deriving DecidableEq

/-- The per-command options `checkServer` passes alongside the command. -/
structure CommandOptions where
  socketTimeout : Nat
  exhaustAllowed : Bool
deriving DecidableEq

/-- `makeTopologyVersion` (source lines 289-294): rebuilds the document
with the counter as a 64-bit value; in this embedding the numeric
conversion is the identity. -/
def makeTopologyVersion (tv : TopologyVersion) : TopologyVersion :=
  { processId := tv.processId, counter := tv.counter }

/-- Command construction of `checkServer` when a private connection
exists (source lines 180-192): with a known topology version the command
is awaitable, carrying `maxAwaitTimeMS = heartbeatFrequencyMS` and the
topology version, with socket timeout `connectTimeoutMS + maxAwaitTimeMS`
and exhaust responses allowed; otherwise a plain ismaster with socket
timeout `connectTimeoutMS`. -/
def checkServerCmd (m : Monitor) (topologyVersion : Option TopologyVersion) :
    IsMasterCmd × CommandOptions :=
  let connectTimeoutMS := m.connectTimeoutMS
  let maxAwaitTimeMS := m.heartbeatFrequencyMS
  let isAwaitable := topologyVersion.isSome
  (if isAwaitable then
     { maxAwaitTimeMS := some maxAwaitTimeMS,
       topologyVersion := topologyVersion.map makeTopologyVersion }
   else
     { maxAwaitTimeMS := none, topologyVersion := none },
   if isAwaitable then
     { socketTimeout := connectTimeoutMS + maxAwaitTimeMS, exhaustAllowed := true }
   else
     { socketTimeout := connectTimeoutMS, exhaustAllowed := false })

/-- Synchronous part of `checkServer` (source lines 157-245): emit the
heartbeat-started event and begin a round — through `Connection.command`
when the private connection exists (awaitable when the description holds
a topology version), otherwise through `connect`. -/
def checkServerStart (m : Monitor) (topologyVersion : Option TopologyVersion) :
    Monitor × List MAction :=
  if m.conn.isSome then
    ({ m with
        rounds := m.rounds ++
          [{ id := m.nextRoundId, mode := RoundMode.viaCommand topologyVersion.isSome,
             cancelled := false }],
        nextRoundId := m.nextRoundId + 1 },
     [MAction.emitHeartbeatStarted])
  else
    ({ m with
        rounds := m.rounds ++
          [{ id := m.nextRoundId, mode := RoundMode.viaConnect, cancelled := false }],
        nextRoundId := m.nextRoundId + 1 },
     [MAction.emitHeartbeatStarted])

/-- Synchronous part of `monitorServer` (source lines 247-253):
transition to monitoring, emit the legacy monitoring event, and start a
round via `checkServer`. -/
def monitorServer (m : Monitor) (topologyVersion : Option TopologyVersion) :
    Monitor × List MAction :=
  let m1 := stateTransition m MState.monitoring
  let p := checkServerStart m1 topologyVersion
  (p.1, MAction.emitMonitoring :: p.2)

/-- `failureHandler` inside `checkServer` (source lines 161-178), minus
the final `callback(err)`: forcibly destroy the private connection if
present (clearing the field), emit the heartbeat-failed and resetServer
events, and emit resetConnectionPool when the error is a network error. -/
def failureHandler (m : Monitor) (networkErr : Bool) : Monitor × List MAction :=
  let p :=
    match m.conn with
    | some _ => ({ m with conn := none }, [MAction.destroyConnection true])
    | none => (m, [])
  (p.1, p.2 ++ [MAction.emitHeartbeatFailed, MAction.emitResetServer] ++
    (if networkErr then [MAction.emitResetConnectionPool] else []))

/-- Completion of an in-flight round with an error.  On the command path
the error goes straight to `failureHandler`; on the connect path (source
lines 220-231) the connection field is cleared and resetConnectionPool is
emitted for non-network errors before `failureHandler` runs.  Either way
the `monitorServer` callback then runs with the error. -/
def completeRoundFailure (m : Monitor) (r : Round) (now : Nat) (networkErr : Bool)
    (serverType : ServerType) : Monitor × List MAction :=
  let m0 := { m with rounds := m.rounds.filter (fun x => decide (x.id ≠ r.id)) }
  match r.mode with
  | RoundMode.viaCommand _ =>
    let p := failureHandler m0 networkErr
    (monitorServerCallback p.1 now true serverType none, p.2)
  | RoundMode.viaConnect =>
    let m1 := { m0 with conn := none }
    let a0 := if networkErr then [] else [MAction.emitResetConnectionPool]
    let p := failureHandler m1 networkErr
    (monitorServerCallback p.1 now true serverType none, a0 ++ p.2)

/-- Completion of an in-flight round with a successful reply.  A
streaming (awaitable) reply emits succeeded and immediately a new started
event, leaving the round in flight (source lines 200-213); a one-shot
command or connect completion emits succeeded and returns to the
`monitorServer` callback (a connect completion also installs the fresh
connection, source lines 233-243). -/
def completeRoundSuccess (m : Monitor) (r : Round) (now : Nat) (reply : IsMasterReply)
    (serverType : ServerType) : Monitor × List MAction :=
  match r.mode with
  | RoundMode.viaCommand true =>
    (m, [MAction.emitHeartbeatSucceeded, MAction.emitHeartbeatStarted])
  | RoundMode.viaCommand false =>
    let m0 := { m with rounds := m.rounds.filter (fun x => decide (x.id ≠ r.id)) }
    (monitorServerCallback m0 now false serverType (some reply),
     [MAction.emitHeartbeatSucceeded])
  | RoundMode.viaConnect =>
    let m0 := { m with
                 rounds := m.rounds.filter (fun x => decide (x.id ≠ r.id)),
                 conn := some false }
    (monitorServerCallback m0 now false serverType (some reply),
     [MAction.emitHeartbeatSucceeded])

/-- `Monitor.prototype.connect` (source lines 90-96): a no-op unless the
state is closed; otherwise `monitorServer` runs. -/
def Monitor.connect (m : Monitor) (topologyVersion : Option TopologyVersion) :
    Monitor × List MAction :=
  if m.state ≠ MState.closed then (m, [])
  else monitorServer m topologyVersion

/-- `Monitor.prototype.requestCheck` (source lines 98-114): ignored in
closing, closed and monitoring states; otherwise, when more than
`minHeartbeatFrequencyMS` remains until the next scheduled check and the
`kMonitorId` field holds a timer id, the timer is cleared and monitoring
rescheduled after `minHeartbeatFrequencyMS`; otherwise the timer is
cleared and a round starts immediately. -/
def Monitor.requestCheck (m : Monitor) (now : Nat) (topologyVersion : Option TopologyVersion) :
    Monitor × List MAction :=
  if m.state = MState.closing ∨ m.state = MState.closed ∨ m.state = MState.monitoring then
    (m, [])
  else
    let heartbeatFrequencyMS := m.heartbeatFrequencyMS
    let minHeartbeatFrequencyMS := m.minHeartbeatFrequencyMS
    let remainingTime : Int :=
      (heartbeatFrequencyMS : Int) - (calculateDurationInMs now m.lastCheckTime : Int)
    if remainingTime > (minHeartbeatFrequencyMS : Int) ∧ m.monitorId.isSome = true then
      (rescheduleMonitoring (jsClearTimeout m m.monitorId) now (some minHeartbeatFrequencyMS), [])
    else
      monitorServer (jsClearTimeout m m.monitorId) topologyVersion

/-- `Monitor.prototype.reset` (source lines 116-135): a no-op in closed
and closing states; otherwise transition to closing, signal the
cancellation token (cancelling any in-flight round), clear the pending
timer, forcibly destroy the private connection (without clearing the
field), transition to idle, and arm a timer for a full
`heartbeatFrequencyMS`. -/
def Monitor.reset (m : Monitor) : Monitor × List MAction :=
  if m.state = MState.closed ∨ m.state = MState.closing then (m, [])
  else
    let m1 := stateTransition m MState.closing
    let m2 := { m1 with rounds := m1.rounds.map (fun r => { r with cancelled := true }) }
    let m3 := jsClearTimeout m2 m2.monitorId
    let p4 : Monitor × List MAction :=
      match m3.conn with
      | some _ => ({ m3 with conn := some true }, [MAction.destroyConnection true])
      | none => (m3, [])
    let m5 := stateTransition p4.1 MState.idle
    let p := jsSetTimeout m5 TimerKind.fromReset (some m5.heartbeatFrequencyMS)
    ({ p.1 with monitorId := some p.2 }, [MAction.emitCancel] ++ p4.2)

/-- `Monitor.prototype.close` (source lines 137-154): a no-op in closed
and closing states; otherwise transition to closing, signal the
cancellation token (cancelling any in-flight round), clear the pending
timer, forcibly destroy the private connection (without clearing the
field), emit the close event, and transition to closed. -/
def Monitor.close (m : Monitor) : Monitor × List MAction :=
  if m.state = MState.closed ∨ m.state = MState.closing then (m, [])
  else
    let m1 := stateTransition m MState.closing
    let m2 := { m1 with rounds := m1.rounds.map (fun r => { r with cancelled := true }) }
    let m3 := jsClearTimeout m2 m2.monitorId
    let p4 : Monitor × List MAction :=
      match m3.conn with
      | some _ => ({ m3 with conn := some true }, [MAction.destroyConnection true])
      | none => (m3, [])
    let m5 := stateTransition p4.1 MState.closed
    (m5, [MAction.emitCancel] ++ p4.2 ++ [MAction.emitClose])

/-- Firing of an armed timer: the timer is disarmed; a reschedule timer
callback clears the `kMonitorId` field and calls `requestCheck`
(source lines 283-286); a reset timer callback calls `requestCheck`
directly (source line 134). -/
def fireTimer (m : Monitor) (t : Timer) (now : Nat) (topologyVersion : Option TopologyVersion) :
    Monitor × List MAction :=
  let m0 := { m with timers := m.timers.filter (fun x => decide (x.id ≠ t.id)) }
  match t.kind with
  | TimerKind.reschedule => Monitor.requestCheck { m0 with monitorId := none } now topologyVersion
  | TimerKind.fromReset => Monitor.requestCheck m0 now topologyVersion

/-- Completion of the round a `reset()`/`close()` cancelled: cancelling
destroys the socket or aborts the connect, so the round finishes with an
error and runs the normal failure path. -/
def drainRound (m : Monitor) (now : Nat) (networkErr : Bool) (serverType : ServerType) : Monitor :=
  match m.rounds with
  | [] => m
  | r :: _ => (completeRoundFailure m r now networkErr serverType).1

/-! ## Transition system and invariant -/

/-- One asynchronous step of the monitor system: a public operation, a
timer firing, or an in-flight round completing.  `reset()`/`close()`
steps include the completion of the round they cancel (the spec, section
5, requires cancellation to synchronize with the in-flight round before
anything else happens). -/
inductive Step : Monitor → Monitor → Prop where
  | sConnect (m : Monitor) (tv : Option TopologyVersion) :
      Step m (Monitor.connect m tv).1
  | sRequestCheck (m : Monitor) (now : Nat) (tv : Option TopologyVersion) :
      Step m (Monitor.requestCheck m now tv).1
  | sReset (m : Monitor) (now : Nat) (networkErr : Bool) (st : ServerType) :
      Step m (drainRound (Monitor.reset m).1 now networkErr st)
  | sClose (m : Monitor) (now : Nat) (networkErr : Bool) (st : ServerType) :
      Step m (drainRound (Monitor.close m).1 now networkErr st)
  | sFire (m : Monitor) (t : Timer) (now : Nat) (tv : Option TopologyVersion) :
      t ∈ m.timers → Step m (fireTimer m t now tv).1
  | sCompleteFailure (m : Monitor) (r : Round) (now : Nat) (networkErr : Bool)
      (st : ServerType) : r ∈ m.rounds →
      Step m (completeRoundFailure m r now networkErr st).1
  | sCompleteSuccess (m : Monitor) (r : Round) (now : Nat) (reply : IsMasterReply)
      (st : ServerType) : r ∈ m.rounds →
      Step m (completeRoundSuccess m r now reply st).1

/-- Monitor states reachable from a freshly constructed monitor. -/
inductive Reachable : Monitor → Prop where
  | init (cto hbf minHbf : Nat) : Reachable (initMonitor cto hbf minHbf)
  | step {m m2 : Monitor} : Reachable m → Step m m2 → Reachable m2

/-- The scheduling invariant: at most one armed timer, every armed timer
is the one named by the `kMonitorId` field, at most one in-flight round
and none of them cancelled, a round in flight only in the monitoring
state, no timer armed while monitoring, nothing armed or in flight once
closed, and the transient closing state never observable between steps. -/
structure MonInv (m : Monitor) : Prop where
  timersLen : m.timers.length ≤ 1
  timersField : ∀ t ∈ m.timers, m.monitorId = some t.id
  roundsLen : m.rounds.length ≤ 1
  roundsActive : ∀ r ∈ m.rounds, r.cancelled = false
  roundsState : m.rounds ≠ [] → m.state = MState.monitoring
  monitoringTimers : m.state = MState.monitoring → m.timers = []
  closedQuiet : m.state = MState.closed → m.timers = [] ∧ m.rounds = []
  notClosing : m.state ≠ MState.closing

/-! ## Claims exactly as stated (for the refuted ones) -/

/-- A public method call on a monitor. -/
inductive PublicOp where
  | opConnect (tv : Option TopologyVersion)
  | opRequestCheck (now : Nat) (tv : Option TopologyVersion)
  | opReset
  | opClose

/-- Run one public method call (the synchronous part only: callbacks of
rounds still in flight run asynchronously, later). -/
def applyOp (m : Monitor) (op : PublicOp) : Monitor :=
  match op with
  | PublicOp.opConnect tv => (Monitor.connect m tv).1
  | PublicOp.opRequestCheck now tv => (Monitor.requestCheck m now tv).1
  | PublicOp.opReset => (Monitor.reset m).1
  | PublicOp.opClose => (Monitor.close m).1

/-- Run a sequence of public method calls back to back. -/
def runOps (m : Monitor) (ops : List PublicOp) : Monitor :=
  ops.foldl applyOp m

/-- Claim C1 as stated: after `close()` has produced a closed monitor,
`connect()`, `reset()` and `requestCheck()` all leave the monitor
unchanged and emit nothing. -/
def C1ClaimAsStated : Prop :=
  ∀ (m0 m : Monitor) (acts : List MAction) (tv : Option TopologyVersion) (now : Nat),
    Monitor.close m0 = (m, acts) → m.state = MState.closed →
    Monitor.connect m tv = (m, []) ∧ Monitor.requestCheck m now tv = (m, []) ∧
      Monitor.reset m = (m, [])

/-- Claim C2 as stated, failure half: when a round fails and the last
known server role is not unknown, the next round is scheduled after
`heartbeatFrequencyMS`. -/
def C2ClaimAsStated : Prop :=
  ∀ (m : Monitor) (r : Round) (now : Nat) (networkErr : Bool) (st : ServerType),
    r ∈ m.rounds → m.state = MState.monitoring → st ≠ ServerType.unknown →
    ((completeRoundFailure m r now networkErr st).1.timers.map (fun t => t.delay)) =
      [some m.heartbeatFrequencyMS]

/-- Claim C3 as stated, first half: in a state that is not closing,
closed or monitoring, whenever more than `minHeartbeatFrequencyMS`
remains until the next scheduled check, `requestCheck()` reschedules the
pending timer to fire after `minHeartbeatFrequencyMS` and does not start
a round. -/
def C3ClaimAsStated : Prop :=
  ∀ (m : Monitor) (now : Nat) (tv : Option TopologyVersion),
    m.state = MState.idle →
    (m.heartbeatFrequencyMS : Int) - (calculateDurationInMs now m.lastCheckTime : Int) >
        (m.minHeartbeatFrequencyMS : Int) →
    ((Monitor.requestCheck m now tv).1.timers.map (fun t => t.delay)) =
        [some m.minHeartbeatFrequencyMS] ∧
      (Monitor.requestCheck m now tv).1.rounds = m.rounds

/-- Claim C4 as stated, pool half: a failing round emits the
invalidate-pool event exactly when the error is a network error. -/
def C4ClaimAsStated : Prop :=
  ∀ (m : Monitor) (r : Round) (now : Nat) (networkErr : Bool) (st : ServerType),
    r ∈ m.rounds →
    (MAction.emitResetConnectionPool ∈ (completeRoundFailure m r now networkErr st).2 ↔
      networkErr = true)

/-- Claim C6 as stated, round half: over every sequence of public
operations at most one heartbeat round is ever in flight. -/
def C6ClaimAsStated : Prop :=
  ∀ (cto hbf minHbf : Nat) (ops : List PublicOp),
    (runOps (initMonitor cto hbf minHbf) ops).rounds.length ≤ 1

/-- The five recognized mode strings named by the spec (the claim speaks
of exactly these five). -/
def RECOGNIZED_MODES : List ModeArg :=
  [ModeArg.str "primary", ModeArg.str "primaryPreferred", ModeArg.str "secondary",
   ModeArg.str "secondaryPreferred", ModeArg.str "nearest"]

/-- Lift an optional tag array into the tags argument position. -/
def tagsOfOpt : Option (List Tag) → TagsArg
  | some l => TagsArg.arr l
  | none => TagsArg.undef

/-- Lift an optional options object into the options argument position. -/
def optsOfOpt : Option RPOptions → OptionsArg
  | some o => OptionsArg.obj o
  | none => OptionsArg.undef

/-- The maxStalenessSeconds value carried by an optional options object. -/
def msOfOpt (o : Option RPOptions) : Option Int :=
  match o with
  | some r => r.maxStalenessSeconds
  | none => none

/-- The hedge value carried by an optional options object. -/
def hedgeOfOpt (o : Option RPOptions) : Option HedgeDoc :=
  match o with
  | some r => r.hedge
  | none => none

/-- Claim C8 as stated: with tags absent or a tag array and options
absent or an object, construction fails exactly when the mode is not one
of the five recognized strings, or primary is combined with non-empty
tags, staleness or hedge, or maxStalenessSeconds is present but not
positive. -/
def C8ClaimAsStated : Prop :=
  ∀ (mode : ModeArg) (ts : Option (List Tag)) (o : Option RPOptions),
    isOkE (ReadPreference.make mode (tagsOfOpt ts) (optsOfOpt o)) = false ↔
      (decide (mode ∈ RECOGNIZED_MODES) = false ∨
        (∃ n, msOfOpt o = some n ∧ n ≤ 0) ∨
        (mode = ModeArg.str "primary" ∧
          (tagsNonEmptyArray (tagsOfOpt ts) = true ∨ (msOfOpt o).isSome = true ∨
            (hedgeOfOpt o).isSome = true)))

/-! ## Helper lemmas -/

/-- A list of length at most one containing an element is the singleton
of that element. -/
theorem eq_singleton_of_mem_len_le_one {α : Type} {l : List α} {a : α}
    (h : a ∈ l) (hl : l.length ≤ 1) : l = [a] := by
  cases l with
  | nil => cases h
  | cons b bs =>
    cases bs with
    | nil => simp at h; rw [h]
    | cons c cs => simp at hl

/-- `primaryChecks` fails exactly for primary mode combined with
non-empty tags, a set staleness or a hedge. -/
theorem primaryChecks_fails_iff (rp : ReadPreference) :
    isOkE (ReadPreference.primaryChecks rp) = false ↔
      (rp.mode = ModeArg.str "primary" ∧
        (tagsNonEmptyArray rp.tags = true ∨ rp.maxStalenessSeconds.isSome = true ∨
          rp.hedge.isSome = true)) := by
  unfold ReadPreference.primaryChecks
  by_cases h1 : rp.mode = ModeArg.str "primary"
  · simp only [h1, if_pos rfl]
    by_cases h2 : tagsNonEmptyArray rp.tags = true
    · simp [h2, isOkE]
    · simp only [h2, if_neg h2]
      by_cases h3 : rp.maxStalenessSeconds.isSome = true
      · simp [h3, isOkE]
      · by_cases h4 : rp.hedge.isSome = true <;> simp [h3, h4, isOkE]
  · simp [h1, isOkE]

/-- `primaryChecks` returns the record it was given when it succeeds. -/
theorem primaryChecks_ok_eq {rp rp2 : ReadPreference}
    (h : ReadPreference.primaryChecks rp = Except.ok rp2) : rp2 = rp := by
  unfold ReadPreference.primaryChecks at h
  by_cases h1 : rp.mode = ModeArg.str "primary"
  · simp only [h1, if_pos rfl] at h
    by_cases h2 : tagsNonEmptyArray rp.tags = true
    · simp [h2] at h
    · simp only [h2, if_neg h2] at h
      by_cases h3 : rp.maxStalenessSeconds.isSome = true
      · simp [h3] at h
      · by_cases h4 : rp.hedge.isSome = true <;> simp [h3, h4] at h
        · exact h.symm
  · simp [h1] at h
    exact h.symm

/-- With a valid mode, construction over an absent-or-array tags argument
and an absent-or-object options argument always reaches the assignment
section. -/
theorem make_eq_assign {mode : ModeArg} (hv : ReadPreference.isValid mode = true)
    (ts : Option (List Tag)) (o : Option RPOptions) :
    ReadPreference.make mode (tagsOfOpt ts) (optsOfOpt o) =
      ReadPreference.assign mode (tagsOfOpt ts) (optsOfOpt o) := by
  cases ts <;> cases o <;>
    simp [ReadPreference.make, tagsOfOpt, optsOfOpt, hv, typeofIsObject, tagsIsArray, tagsTruthy]

/-- Characterization of construction failure over absent-or-array tags
and absent-or-object options. -/
theorem make_fails_iff (mode : ModeArg) (ts : Option (List Tag)) (o : Option RPOptions) :
    isOkE (ReadPreference.make mode (tagsOfOpt ts) (optsOfOpt o)) = false ↔
      (ReadPreference.isValid mode = false ∨
        (∃ n, msOfOpt o = some n ∧ n ≤ 0) ∨
        (mode = ModeArg.str "primary" ∧
          (tagsNonEmptyArray (tagsOfOpt ts) = true ∨ (msOfOpt o).isSome = true ∨
            (hedgeOfOpt o).isSome = true))) := by
  by_cases hv : ReadPreference.isValid mode = true
  · rw [make_eq_assign hv ts o]
    have hvf : ¬ (ReadPreference.isValid mode = false) := by simp [hv]
    cases o with
    | none =>
      simp only [ReadPreference.assign, optsOfOpt, msOfOpt, hedgeOfOpt]
      rw [primaryChecks_fails_iff]
      simp [hvf]
    | some r =>
      cases hms : r.maxStalenessSeconds with
      | none =>
        simp only [ReadPreference.assign, optsOfOpt, msOfOpt, hedgeOfOpt, hms]
        rw [primaryChecks_fails_iff]
        simp [hvf, hms]
      | some n =>
        by_cases hn : n ≤ 0
        · simp only [ReadPreference.assign, optsOfOpt, msOfOpt, hedgeOfOpt, hms, if_pos hn]
          simp [isOkE, hvf]
          exact Or.inl hn
        · simp only [ReadPreference.assign, optsOfOpt, msOfOpt, hedgeOfOpt, hms, if_neg hn]
          rw [primaryChecks_fails_iff]
          simp [hvf, hms, hn]
  · have hvf : ReadPreference.isValid mode = false := by
      cases h2 : ReadPreference.isValid mode
      · rfl
      · exact absurd h2 hv
    unfold ReadPreference.make
    rw [if_pos hvf]
    simp [isOkE, hvf]

/-! ## Claim C8 -/

/-- C8 counterexample: the claim as stated is false, because `null` is a
member of `VALID_MODES`: construction with mode `null` succeeds even
though `null` is not one of the five recognized mode strings, so the
claimed exactly-when characterization fails at mode `null`. -/
theorem C8_counterexample : ¬ C8ClaimAsStated := by
  intro h
  have h2 := (h ModeArg.null none none).mpr (Or.inl (by decide))
  exact absurd h2 (by decide)

/-- C8 (amended): over tags absent or an array and options absent or an
object, construction fails exactly when the mode is invalid (neither
null nor one of the five recognized strings), or maxStalenessSeconds is
present but not positive, or primary is combined with non-empty tags, a
staleness bound, or a hedge; and mode secondary with a non-empty tag
array always succeeds. -/
theorem C8_validation (mode : ModeArg) (ts : Option (List Tag)) (o : Option RPOptions)
    (t : Tag) (rest : List Tag) :
    (isOkE (ReadPreference.make mode (tagsOfOpt ts) (optsOfOpt o)) = false ↔
      (ReadPreference.isValid mode = false ∨
        (∃ n, msOfOpt o = some n ∧ n ≤ 0) ∨
        (mode = ModeArg.str "primary" ∧
          (tagsNonEmptyArray (tagsOfOpt ts) = true ∨ (msOfOpt o).isSome = true ∨
            (hedgeOfOpt o).isSome = true)))) ∧
    isOkE (ReadPreference.make (ModeArg.str "secondary") (TagsArg.arr (t :: rest))
      OptionsArg.undef) = true := by
  constructor
  · exact make_fails_iff mode ts o
  · have h := @make_eq_assign (ModeArg.str "secondary") (by decide) (some (t :: rest)) none
    simp only [tagsOfOpt, optsOfOpt] at h
    rw [h]
    simp [ReadPreference.assign, ReadPreference.primaryChecks, isOkE]

/-! ## Claim C9 -/

/-- C9: `equals` compares modes only, so any two instances with equal
modes are equal regardless of tags, staleness or hedge; in particular two
secondaryPreferred instances constructed with different tag arrays are
reported equal. -/
theorem C9_equals_mode_only :
    (∀ a b : ReadPreference, ReadPreference.equals a b = true ↔ a.mode = b.mode) ∧
    (∀ (l1 l2 : List Tag) (a b : ReadPreference),
      ReadPreference.make (ModeArg.str "secondaryPreferred") (TagsArg.arr l1)
        OptionsArg.undef = Except.ok a →
      ReadPreference.make (ModeArg.str "secondaryPreferred") (TagsArg.arr l2)
        OptionsArg.undef = Except.ok b →
      ReadPreference.equals a b = true) := by
  have hmode : ∀ (l : List Tag) (a : ReadPreference),
      ReadPreference.make (ModeArg.str "secondaryPreferred") (TagsArg.arr l)
        OptionsArg.undef = Except.ok a → a.mode = ModeArg.str "secondaryPreferred" := by
    intro l a h
    have he := @make_eq_assign (ModeArg.str "secondaryPreferred") (by decide)
      (some l) none
    simp only [tagsOfOpt, optsOfOpt] at he
    rw [he] at h
    simp only [ReadPreference.assign] at h
    have := primaryChecks_ok_eq h
    rw [this]
  constructor
  · intro a b
    unfold ReadPreference.equals
    constructor
    · intro h
      exact (of_decide_eq_true h).symm
    · intro h
      exact decide_eq_true h.symm
  · intro l1 l2 a b h1 h2
    unfold ReadPreference.equals
    rw [hmode l1 a h1, hmode l2 b h2]
    decide

/-- C9 witness: two concrete secondaryPreferred instances with different
tag arrays are equal. -/
theorem C9_witness :
    ReadPreference.equals
      { mode := ModeArg.str "secondaryPreferred", tags := TagsArg.arr ["dc1"],
        hedge := none, maxStalenessSeconds := none, minWireVersion := none }
      { mode := ModeArg.str "secondaryPreferred", tags := TagsArg.arr ["dc2", "dc3"],
        hedge := none, maxStalenessSeconds := none, minWireVersion := none } = true :=
  C9_equals_mode_only.2 ["dc1"] ["dc2", "dc3"] _ _ rfl rfl

/-! ## Claim C10 -/

/-- C10: a non-array object second argument with no third argument is
treated as the options object — construction coincides with passing it
in the options position, and on success the result has undefined tags
and the maxStalenessSeconds and hedge of that object; and with a third
argument present, a truthy non-array, non-object second argument is
rejected with the tags-must-be-an-array error. -/
theorem C10_object_tags_normalization (mode : ModeArg) (o : RPOptions) :
    (ReadPreference.make mode (TagsArg.obj o) OptionsArg.undef =
      ReadPreference.make mode TagsArg.undef (OptionsArg.obj o)) ∧
    (∀ rp, ReadPreference.make mode (TagsArg.obj o) OptionsArg.undef = Except.ok rp →
      rp.tags = TagsArg.undef ∧ rp.hedge = o.hedge ∧
        rp.maxStalenessSeconds = o.maxStalenessSeconds) ∧
    (∀ o2 : RPOptions, ReadPreference.isValid mode = true →
      ReadPreference.make mode (TagsArg.prim true) (OptionsArg.obj o2) =
        Except.error "ReadPreference tags must be an array") := by
  refine ⟨?_, ?_, ?_⟩
  · by_cases hv : ReadPreference.isValid mode = false
    · simp [ReadPreference.make, hv]
    · simp [ReadPreference.make, hv, typeofIsObject, tagsIsArray, tagsTruthy, optionsFromTags]
  · intro rp h
    by_cases hv : ReadPreference.isValid mode = false
    · simp [ReadPreference.make, hv] at h
    · simp [ReadPreference.make, hv, typeofIsObject, tagsIsArray, optionsFromTags] at h
      simp only [ReadPreference.assign] at h
      cases hms : o.maxStalenessSeconds with
      | none =>
        rw [hms] at h
        have h2 := primaryChecks_ok_eq h
        rw [h2]
        exact ⟨rfl, rfl, rfl⟩
      | some n =>
        rw [hms] at h
        have h2 : (if n ≤ 0 then
              (Except.error "maxStalenessSeconds must be a positive integer" :
                Except String ReadPreference)
            else
              ReadPreference.primaryChecks
                { mode := mode, tags := TagsArg.undef, hedge := o.hedge,
                  maxStalenessSeconds := some n, minWireVersion := some 5 }) =
            Except.ok rp := h
        by_cases hn : n ≤ 0
        · rw [if_pos hn] at h2
          cases h2
        · rw [if_neg hn] at h2
          have h3 := primaryChecks_ok_eq h2
          rw [h3]
          exact ⟨rfl, rfl, rfl⟩
  · intro o2 hv
    have hvf : ¬ (ReadPreference.isValid mode = false) := by simp [hv]
    simp [ReadPreference.make, hvf, typeofIsObject, tagsIsArray, tagsTruthy]

/-- C10 witness: a concrete object second argument with staleness 90 and
a hedge takes effect as the options object, and a concrete truthy
primitive second argument with a third argument present is rejected. -/
theorem C10_witness :
    (ReadPreference.make (ModeArg.str "secondary")
        (TagsArg.obj { maxStalenessSeconds := some 90, hedge := some { enabled := some true } })
        OptionsArg.undef =
      ReadPreference.make (ModeArg.str "secondary") TagsArg.undef
        (OptionsArg.obj { maxStalenessSeconds := some 90, hedge := some { enabled := some true } })) ∧
    ({ mode := ModeArg.str "secondary", tags := TagsArg.undef,
       hedge := some { enabled := some true }, maxStalenessSeconds := some 90,
       minWireVersion := some 5 : ReadPreference }.tags = TagsArg.undef ∧
     ({ mode := ModeArg.str "secondary", tags := TagsArg.undef,
        hedge := some { enabled := some true }, maxStalenessSeconds := some 90,
        minWireVersion := some 5 : ReadPreference }.hedge =
       ({ maxStalenessSeconds := some 90, hedge := some { enabled := some true } : RPOptions }).hedge) ∧
     ({ mode := ModeArg.str "secondary", tags := TagsArg.undef,
        hedge := some { enabled := some true }, maxStalenessSeconds := some 90,
        minWireVersion := some 5 : ReadPreference }.maxStalenessSeconds =
       ({ maxStalenessSeconds := some 90, hedge := some { enabled := some true } : RPOptions }).maxStalenessSeconds)) ∧
    (ReadPreference.make (ModeArg.str "secondary") (TagsArg.prim true)
        (OptionsArg.obj { maxStalenessSeconds := none, hedge := none }) =
      Except.error "ReadPreference tags must be an array") := by
  refine ⟨?_, ?_, ?_⟩
  · exact (C10_object_tags_normalization (ModeArg.str "secondary")
      { maxStalenessSeconds := some 90, hedge := some { enabled := some true } }).1
  · exact (C10_object_tags_normalization (ModeArg.str "secondary")
      { maxStalenessSeconds := some 90, hedge := some { enabled := some true } }).2.1 _ rfl
  · exact (C10_object_tags_normalization (ModeArg.str "secondary")
      { maxStalenessSeconds := some 90, hedge := some { enabled := some true } }).2.2
      { maxStalenessSeconds := none, hedge := none } (by decide)

/-! ## Monitor helper lemmas -/

/-- Filtering away a key every element carries empties a timer list. -/
theorem timers_filter_nil {l : List Timer} {v : Nat} (h : ∀ t ∈ l, t.id = v) :
    l.filter (fun t => decide (t.id ≠ v)) = [] := by
  induction l with
  | nil => rfl
  | cons a as ih =>
    have ha := h a (List.mem_cons_self a as)
    have ih2 := ih (fun t ht => h t (List.mem_cons_of_mem a ht))
    simp [List.filter_cons, ha, ih2]
    intro x hx
    exact h x (List.mem_cons_of_mem a hx)

/-- Filtering away a key every element carries empties a round list. -/
theorem rounds_filter_nil {l : List Round} {v : Nat} (h : ∀ r ∈ l, r.id = v) :
    l.filter (fun r => decide (r.id ≠ v)) = [] := by
  induction l with
  | nil => rfl
  | cons a as ih =>
    have ha := h a (List.mem_cons_self a as)
    have ih2 := ih (fun r hr => h r (List.mem_cons_of_mem a hr))
    simp [List.filter_cons, ha, ih2]
    intro x hx
    exact h x (List.mem_cons_of_mem a hx)

/-- When every armed timer is the one named by the `kMonitorId` field,
clearing that timer leaves no armed timer. -/
theorem jsClearTimeout_eq (m : Monitor)
    (hA : ∀ t ∈ m.timers, m.monitorId = some t.id) :
    jsClearTimeout m m.monitorId = { m with timers := [] } := by
  cases hI : m.monitorId with
  | none =>
    have ht : m.timers = [] := by
      cases hT : m.timers with
      | nil => rfl
      | cons t ts =>
        have := hA t (by rw [hT]; exact List.mem_cons_self t ts)
        rw [hI] at this
        cases this
    unfold jsClearTimeout
    cases m
    simp_all
  | some v =>
    have hfil : m.timers.filter (fun t => decide (t.id ≠ v)) = [] := by
      refine timers_filter_nil ?_
      intro t ht
      have h2 := hA t ht
      rw [hI] at h2
      exact (Option.some.inj h2).symm
    have h3 : jsClearTimeout m (some v) =
        { m with timers := m.timers.filter (fun t => decide (t.id ≠ v)) } := rfl
    rw [h3, hfil, hI]

/-- A legal transition updates only the state field. -/
theorem stateTransition_eq (m : Monitor) (ns : MState)
    (h : ns ∈ legalTransitions m.state) :
    stateTransition m ns = { m with state := ns } := by
  unfold stateTransition
  rw [if_pos h]

/-- Characterization of `rescheduleMonitoring` outside the closing and
closed states, under the single-timer field discipline: it moves to
idle, stamps the check time, and leaves exactly one armed reschedule
timer, registered in the field. -/
theorem rescheduleMonitoring_eq (m : Monitor) (now : Nat) (ms : Option Nat)
    (h : m.state = MState.idle ∨ m.state = MState.monitoring)
    (hA : ∀ t ∈ m.timers, m.monitorId = some t.id) :
    rescheduleMonitoring m now ms =
      { m with state := MState.idle,
               timers := [{ id := m.nextTimerId, kind := TimerKind.reschedule, delay := ms }],
               monitorId := some m.nextTimerId,
               nextTimerId := m.nextTimerId + 1,
               lastCheckTime := some now } := by
  have hne : ¬ (m.state = MState.closing ∨ m.state = MState.closed) := by
    rcases h with h | h <;> rw [h] <;> decide
  have hlegal : MState.idle ∈ legalTransitions m.state := by
    rcases h with h | h <;> rw [h] <;> decide
  simp only [rescheduleMonitoring]
  rw [if_neg hne, stateTransition_eq m MState.idle hlegal]
  rw [jsClearTimeout_eq { m with state := MState.idle } hA]
  rfl

/-- `rescheduleMonitoring` is the identity in the closing and closed
states. -/
theorem rescheduleMonitoring_closed (m : Monitor) (now : Nat) (ms : Option Nat)
    (h : m.state = MState.closing ∨ m.state = MState.closed) :
    rescheduleMonitoring m now ms = m := by
  unfold rescheduleMonitoring
  rw [if_pos h]

/-- The `monitorServer` callback always defers to `rescheduleMonitoring`
with either an undefined delay or the full heartbeat frequency. -/
theorem monitorServerCallback_exists (m : Monitor) (now : Nat) (err : Bool)
    (st : ServerType) (im : Option IsMasterReply) :
    monitorServerCallback m now err st im = rescheduleMonitoring m now none ∨
      monitorServerCallback m now err st im =
        rescheduleMonitoring m now (some m.heartbeatFrequencyMS) := by
  unfold monitorServerCallback
  by_cases h1 : err = true ∧ st ≠ ServerType.unknown
  · rw [if_pos h1]
    exact Or.inl rfl
  · rw [if_neg h1]
    by_cases h2 : (im.map (fun r => r.topologyVersion.isSome)).getD false = true
    · rw [if_pos h2]
      exact Or.inl rfl
    · rw [if_neg h2]
      exact Or.inr rfl

/-- Error-callback delay selection: undefined delay for a known server
type. -/
theorem monitorServerCallback_err_known (m : Monitor) (now : Nat) (st : ServerType)
    (h : st ≠ ServerType.unknown) :
    monitorServerCallback m now true st none = rescheduleMonitoring m now none := by
  unfold monitorServerCallback
  rw [if_pos ⟨rfl, h⟩]

/-- Error-callback delay selection: full heartbeat frequency when the
server type is already unknown. -/
theorem monitorServerCallback_err_unknown (m : Monitor) (now : Nat) :
    monitorServerCallback m now true ServerType.unknown none =
      rescheduleMonitoring m now (some m.heartbeatFrequencyMS) := by
  unfold monitorServerCallback
  rw [if_neg (by simp), if_neg (by simp)]

/-- Success-callback delay selection: undefined delay when the reply
carries a topology version. -/
theorem monitorServerCallback_ok_tv (m : Monitor) (now : Nat) (st : ServerType)
    (reply : IsMasterReply) (h : reply.topologyVersion.isSome = true) :
    monitorServerCallback m now false st (some reply) = rescheduleMonitoring m now none := by
  unfold monitorServerCallback
  rw [if_neg (by simp), if_pos (by simp [h])]

/-- Success-callback delay selection: full heartbeat frequency when the
reply carries no topology version. -/
theorem monitorServerCallback_ok_noTv (m : Monitor) (now : Nat) (st : ServerType)
    (reply : IsMasterReply) (h : reply.topologyVersion = none) :
    monitorServerCallback m now false st (some reply) =
      rescheduleMonitoring m now (some m.heartbeatFrequencyMS) := by
  unfold monitorServerCallback
  rw [if_neg (by simp), if_neg (by simp [h])]

/-- A failing round completion always reduces to the `monitorServer`
callback on the monitor with the round removed and the private
connection cleared. -/
theorem completeRoundFailure_fst (m : Monitor) (r : Round) (now : Nat) (nw : Bool)
    (st : ServerType) :
    (completeRoundFailure m r now nw st).1 =
      monitorServerCallback
        { m with rounds := m.rounds.filter (fun x => decide (x.id ≠ r.id)), conn := none }
        now true st none := by
  obtain ⟨st0, conn0, mid0, tms0, rds0, nti0, nri0, lct0, cto0, hbf0, mhf0⟩ := m
  obtain ⟨rid, rmode, rcan⟩ := r
  cases rmode with
  | viaConnect => rfl
  | viaCommand aw =>
    cases conn0 with
    | none => rfl
    | some d => rfl

/-- A streaming reply leaves the monitor unchanged (the round stays in
flight). -/
theorem completeRoundSuccess_stream (m : Monitor) (r : Round) (now : Nat)
    (reply : IsMasterReply) (st : ServerType) (h : r.mode = RoundMode.viaCommand true) :
    (completeRoundSuccess m r now reply st).1 = m := by
  obtain ⟨rid, rmode, rcan⟩ := r
  cases h
  rfl

/-- A one-shot command success reduces to the callback on the monitor
with the round removed. -/
theorem completeRoundSuccess_cmd (m : Monitor) (r : Round) (now : Nat)
    (reply : IsMasterReply) (st : ServerType) (h : r.mode = RoundMode.viaCommand false) :
    (completeRoundSuccess m r now reply st).1 =
      monitorServerCallback
        { m with rounds := m.rounds.filter (fun x => decide (x.id ≠ r.id)) }
        now false st (some reply) := by
  obtain ⟨rid, rmode, rcan⟩ := r
  cases h
  rfl

/-- A connect-path success installs the fresh connection and reduces to
the callback on the monitor with the round removed. -/
theorem completeRoundSuccess_conn (m : Monitor) (r : Round) (now : Nat)
    (reply : IsMasterReply) (st : ServerType) (h : r.mode = RoundMode.viaConnect) :
    (completeRoundSuccess m r now reply st).1 =
      monitorServerCallback
        { m with rounds := m.rounds.filter (fun x => decide (x.id ≠ r.id)),
                 conn := some false }
        now false st (some reply) := by
  obtain ⟨rid, rmode, rcan⟩ := r
  cases h
  rfl

/-- `monitorServer` transitions to monitoring and appends one fresh
non-cancelled round, through the command path if a private connection
exists and the connect path otherwise. -/
theorem monitorServer_fst (m : Monitor) (tv : Option TopologyVersion)
    (h : MState.monitoring ∈ legalTransitions m.state) :
    (monitorServer m tv).1 =
      { m with state := MState.monitoring,
               rounds := m.rounds ++
                 [{ id := m.nextRoundId,
                    mode := if m.conn.isSome then RoundMode.viaCommand tv.isSome
                            else RoundMode.viaConnect,
                    cancelled := false }],
               nextRoundId := m.nextRoundId + 1 } := by
  simp only [monitorServer, checkServerStart]
  rw [stateTransition_eq m MState.monitoring h]
  obtain ⟨st0, conn0, mid0, tms0, rds0, nti0, nri0, lct0, cto0, hbf0, mhf0⟩ := m
  cases conn0 with
  | none => rfl
  | some d => rfl

/-- Characterization of `reset()` outside the closed and closing states,
under the single-timer field discipline: cancel the in-flight rounds,
destroy the connection in place, move to idle, and arm exactly one
full-frequency timer registered in the field. -/
theorem reset_fst (m : Monitor)
    (h : m.state = MState.idle ∨ m.state = MState.monitoring)
    (hA : ∀ t ∈ m.timers, m.monitorId = some t.id) :
    (Monitor.reset m).1 =
      { m with state := MState.idle,
               conn := m.conn.map (fun _ => true),
               rounds := m.rounds.map (fun r => { r with cancelled := true }),
               timers := [{ id := m.nextTimerId, kind := TimerKind.fromReset,
                            delay := some m.heartbeatFrequencyMS }],
               monitorId := some m.nextTimerId,
               nextTimerId := m.nextTimerId + 1 } := by
  obtain ⟨st0, conn0, mid0, tms0, rds0, nti0, nri0, lct0, cto0, hbf0, mhf0⟩ := m
  dsimp only at h hA ⊢
  rcases h with h | h <;> subst h
  · rcases mid0 with _ | v
    · have ht : tms0 = [] := by
        cases tms0 with
        | nil => rfl
        | cons t ts => exact absurd (hA t (List.mem_cons_self t ts)) (by simp)
      subst ht
      cases conn0 <;> rfl
    · have hfil : tms0.filter (fun t => decide (t.id ≠ v)) = [] :=
        timers_filter_nil (fun t ht => (Option.some.inj (hA t ht)).symm)
      cases conn0 <;>
        (simp [Monitor.reset, stateTransition, jsClearTimeout, jsSetTimeout,
           legalTransitions, hfil];
         intro x hx;
         exact (Option.some.inj (hA x hx)).symm)
  · rcases mid0 with _ | v
    · have ht : tms0 = [] := by
        cases tms0 with
        | nil => rfl
        | cons t ts => exact absurd (hA t (List.mem_cons_self t ts)) (by simp)
      subst ht
      cases conn0 <;> rfl
    · have hfil : tms0.filter (fun t => decide (t.id ≠ v)) = [] :=
        timers_filter_nil (fun t ht => (Option.some.inj (hA t ht)).symm)
      cases conn0 <;>
        (simp [Monitor.reset, stateTransition, jsClearTimeout, jsSetTimeout,
           legalTransitions, hfil];
         intro x hx;
         exact (Option.some.inj (hA x hx)).symm)

/-- Characterization of `close()` outside the closed and closing states,
under the single-timer field discipline: cancel the in-flight rounds,
destroy the connection in place, clear the timer (the field keeps its
stale value) and move to closed. -/
theorem close_fst (m : Monitor)
    (h : m.state = MState.idle ∨ m.state = MState.monitoring)
    (hA : ∀ t ∈ m.timers, m.monitorId = some t.id) :
    (Monitor.close m).1 =
      { m with state := MState.closed,
               conn := m.conn.map (fun _ => true),
               rounds := m.rounds.map (fun r => { r with cancelled := true }),
               timers := [] } := by
  obtain ⟨st0, conn0, mid0, tms0, rds0, nti0, nri0, lct0, cto0, hbf0, mhf0⟩ := m
  dsimp only at h hA ⊢
  rcases h with h | h <;> subst h
  · rcases mid0 with _ | v
    · have ht : tms0 = [] := by
        cases tms0 with
        | nil => rfl
        | cons t ts => exact absurd (hA t (List.mem_cons_self t ts)) (by simp)
      subst ht
      cases conn0 <;> rfl
    · have hfil : tms0.filter (fun t => decide (t.id ≠ v)) = [] :=
        timers_filter_nil (fun t ht => (Option.some.inj (hA t ht)).symm)
      cases conn0 <;>
        (simp [Monitor.close, stateTransition, jsClearTimeout, legalTransitions, hfil];
         intro x hx;
         exact (Option.some.inj (hA x hx)).symm)
  · rcases mid0 with _ | v
    · have ht : tms0 = [] := by
        cases tms0 with
        | nil => rfl
        | cons t ts => exact absurd (hA t (List.mem_cons_self t ts)) (by simp)
      subst ht
      cases conn0 <;> rfl
    · have hfil : tms0.filter (fun t => decide (t.id ≠ v)) = [] :=
        timers_filter_nil (fun t ht => (Option.some.inj (hA t ht)).symm)
      cases conn0 <;>
        (simp [Monitor.close, stateTransition, jsClearTimeout, legalTransitions, hfil];
         intro x hx;
         exact (Option.some.inj (hA x hx)).symm)

/-- The actions of `reset()` outside closed and closing: the cancel
signal, then the forced destroy when a connection is present. -/
theorem reset_snd (m : Monitor)
    (h : m.state = MState.idle ∨ m.state = MState.monitoring) :
    (Monitor.reset m).2 =
      [MAction.emitCancel] ++
        (if m.conn.isSome then [MAction.destroyConnection true] else []) := by
  obtain ⟨st0, conn0, mid0, tms0, rds0, nti0, nri0, lct0, cto0, hbf0, mhf0⟩ := m
  dsimp only at h ⊢
  rcases h with h | h <;> subst h <;> rcases mid0 with _ | v <;> cases conn0 <;> rfl

/-! ## Claim C1 -/

/-- C1 counterexample: a monitor that reached the closed state through
`close()` is restarted by a subsequent `connect()` — the state machine
admits closed to monitoring, a fresh round starts and events are
emitted — so `connect()` after `close()` is not a no-op. -/
theorem C1_counterexample : ¬ C1ClaimAsStated := by
  intro h
  have h2 := h ((Monitor.connect (initMonitor 1 2 3) none).1)
    ((Monitor.close ((Monitor.connect (initMonitor 1 2 3) none).1)).1)
    ((Monitor.close ((Monitor.connect (initMonitor 1 2 3) none).1)).2)
    none 0 rfl (by decide)
  exact absurd (congrArg (fun p => p.1.state) h2.1) (by decide)

/-- C1 (amended): after `close()` the state is closed and `reset()` and
`requestCheck()` are no-ops that emit nothing; `connect()`, however, is
not a no-op: from the closed state it transitions to monitoring and
starts a new round. -/
theorem C1_after_close (m : Monitor) (now : Nat) (tv : Option TopologyVersion)
    (h : m.state = MState.closed) :
    Monitor.reset m = (m, []) ∧ Monitor.requestCheck m now tv = (m, []) ∧
      (Monitor.connect m tv).1.state = MState.monitoring := by
  refine ⟨?_, ?_, ?_⟩
  · simp only [Monitor.reset]
    rw [if_pos (Or.inl h)]
  · simp only [Monitor.requestCheck]
    rw [if_pos (Or.inr (Or.inl h))]
  · simp only [Monitor.connect]
    rw [if_neg (by simp [h])]
    rw [monitorServer_fst m tv (by rw [h]; decide)]

/-- C1 witness: the no-op behavior and the restart at a concrete closed
monitor. -/
theorem C1_witness :
    Monitor.reset (initMonitor 1 2 3) = (initMonitor 1 2 3, []) ∧
      Monitor.requestCheck (initMonitor 1 2 3) 0 none = (initMonitor 1 2 3, []) ∧
      (Monitor.connect (initMonitor 1 2 3) none).1.state = MState.monitoring :=
  C1_after_close (initMonitor 1 2 3) 0 none rfl

/-! ## Claim C7 -/

/-- C7: in the idle and monitoring states, `reset()` signals the
cancellation token (cancelling every in-flight round), leaves exactly
one armed timer carrying the full `heartbeatFrequencyMS`, transitions to
idle, and forcibly destroys the private connection when one exists; in
the closed and closing states it does nothing. -/
theorem C7_reset_behavior (m : Monitor)
    (hA : ∀ t ∈ m.timers, m.monitorId = some t.id) :
    ((m.state = MState.idle ∨ m.state = MState.monitoring) →
      (Monitor.reset m).1.state = MState.idle ∧
      (Monitor.reset m).1.timers =
        [{ id := m.nextTimerId, kind := TimerKind.fromReset,
           delay := some m.heartbeatFrequencyMS }] ∧
      MAction.emitCancel ∈ (Monitor.reset m).2 ∧
      (∀ r ∈ (Monitor.reset m).1.rounds, r.cancelled = true) ∧
      (m.conn.isSome = true → MAction.destroyConnection true ∈ (Monitor.reset m).2)) ∧
    ((m.state = MState.closed ∨ m.state = MState.closing) → Monitor.reset m = (m, [])) := by
  constructor
  · intro h
    have he := reset_fst m h hA
    have hs := reset_snd m h
    refine ⟨by rw [he], by rw [he], by rw [hs]; simp, ?_, ?_⟩
    · rw [he]
      intro r hr
      simp only [List.mem_map] at hr
      obtain ⟨x, hx, hxr⟩ := hr
      rw [← hxr]
    · intro hc
      rw [hs, if_pos hc]
      simp
  · intro h
    simp only [Monitor.reset]
    rw [if_pos h]

/-- C7 witness: `reset()` at a concrete idle monitor with an armed timer
and a live connection. -/
theorem C7_witness :
    (Monitor.reset { initMonitor 1 50 5 with
        state := MState.idle,
        conn := some false,
        monitorId := some 3,
        timers := [{ id := 3, kind := TimerKind.reschedule, delay := some 50 }],
        nextTimerId := 4 }).1.state = MState.idle ∧
    (Monitor.reset { initMonitor 1 50 5 with
        state := MState.idle,
        conn := some false,
        monitorId := some 3,
        timers := [{ id := 3, kind := TimerKind.reschedule, delay := some 50 }],
        nextTimerId := 4 }).1.timers =
      [{ id := 4, kind := TimerKind.fromReset, delay := some 50 }] ∧
    MAction.emitCancel ∈ (Monitor.reset { initMonitor 1 50 5 with
        state := MState.idle,
        conn := some false,
        monitorId := some 3,
        timers := [{ id := 3, kind := TimerKind.reschedule, delay := some 50 }],
        nextTimerId := 4 }).2 ∧
    MAction.destroyConnection true ∈ (Monitor.reset { initMonitor 1 50 5 with
        state := MState.idle,
        conn := some false,
        monitorId := some 3,
        timers := [{ id := 3, kind := TimerKind.reschedule, delay := some 50 }],
        nextTimerId := 4 }).2 := by
  have h := (C7_reset_behavior { initMonitor 1 50 5 with
    state := MState.idle,
    conn := some false,
    monitorId := some 3,
    timers := [{ id := 3, kind := TimerKind.reschedule, delay := some 50 }],
    nextTimerId := 4 } (by decide)).1 (Or.inl rfl)
  exact ⟨h.1, h.2.1, h.2.2.1, h.2.2.2.2 (by decide)⟩

/-- The delay of the single timer armed by `rescheduleMonitoring`. -/
theorem rescheduleMonitoring_delays (m : Monitor) (now : Nat) (ms : Option Nat)
    (h : m.state = MState.idle ∨ m.state = MState.monitoring)
    (hA : ∀ t ∈ m.timers, m.monitorId = some t.id) :
    (rescheduleMonitoring m now ms).timers.map (fun t => t.delay) = [ms] := by
  rw [rescheduleMonitoring_eq m now ms h hA]
  rfl

/-! ## Claim C2 -/

/-- C2 counterexample: a round that fails while the last known server
role is not unknown is rescheduled with an undefined delay (an immediate
re-check), not after `heartbeatFrequencyMS` as claimed. -/
theorem C2_counterexample : ¬ C2ClaimAsStated := by
  intro h
  have h2 := h ((Monitor.connect (initMonitor 1 10000 500) none).1)
    { id := 0, mode := RoundMode.viaConnect, cancelled := false } 5 true ServerType.primary
    (by decide) (by decide) (by decide)
  exact absurd h2 (by decide)

/-- C2 (amended): after a terminal outcome, a failed round with a known
server role reschedules with an undefined delay (immediately), a failed
round with the role already unknown reschedules after
`heartbeatFrequencyMS`, a successful one-shot reply carrying a topology
version reschedules with an undefined delay (immediately), and a
successful reply without one reschedules after `heartbeatFrequencyMS`. -/
theorem C2_terminal_scheduling (m : Monitor) (r : Round) (now : Nat) (networkErr : Bool)
    (st : ServerType) (reply : IsMasterReply)
    (hSt : m.state = MState.monitoring)
    (hA : ∀ t ∈ m.timers, m.monitorId = some t.id) :
    (st ≠ ServerType.unknown →
      (completeRoundFailure m r now networkErr st).1.timers.map (fun t => t.delay) =
        [none]) ∧
    (st = ServerType.unknown →
      (completeRoundFailure m r now networkErr st).1.timers.map (fun t => t.delay) =
        [some m.heartbeatFrequencyMS]) ∧
    ((r.mode = RoundMode.viaCommand false ∨ r.mode = RoundMode.viaConnect) →
      reply.topologyVersion.isSome = true →
      (completeRoundSuccess m r now reply st).1.timers.map (fun t => t.delay) =
        [none]) ∧
    ((r.mode = RoundMode.viaCommand false ∨ r.mode = RoundMode.viaConnect) →
      reply.topologyVersion = none →
      (completeRoundSuccess m r now reply st).1.timers.map (fun t => t.delay) =
        [some m.heartbeatFrequencyMS]) := by
  refine ⟨?_, ?_, ?_, ?_⟩
  · intro hne
    rw [completeRoundFailure_fst, monitorServerCallback_err_known _ _ _ hne,
      rescheduleMonitoring_delays] <;>
      first
      | rfl
      | exact Or.inr hSt
      | exact hA
  · intro heq
    subst heq
    rw [completeRoundFailure_fst, monitorServerCallback_err_unknown,
      rescheduleMonitoring_delays] <;>
      first
      | rfl
      | exact Or.inr hSt
      | exact hA
  · intro hmode htv
    rcases hmode with hmode | hmode
    · rw [completeRoundSuccess_cmd m r now reply st hmode,
        monitorServerCallback_ok_tv _ _ _ _ htv, rescheduleMonitoring_delays] <;>
        first
        | rfl
        | exact Or.inr hSt
        | exact hA
    · rw [completeRoundSuccess_conn m r now reply st hmode,
        monitorServerCallback_ok_tv _ _ _ _ htv, rescheduleMonitoring_delays] <;>
        first
        | rfl
        | exact Or.inr hSt
        | exact hA
  · intro hmode htv
    rcases hmode with hmode | hmode
    · rw [completeRoundSuccess_cmd m r now reply st hmode,
        monitorServerCallback_ok_noTv _ _ _ _ htv, rescheduleMonitoring_delays] <;>
        first
        | rfl
        | exact Or.inr hSt
        | exact hA
    · rw [completeRoundSuccess_conn m r now reply st hmode,
        monitorServerCallback_ok_noTv _ _ _ _ htv, rescheduleMonitoring_delays] <;>
        first
        | rfl
        | exact Or.inr hSt
        | exact hA

/-- C2 witness: concrete delay selections for a failed round with a
known role, a failed round with an unknown role, and the two one-shot
success cases. -/
theorem C2_witness :
    ((completeRoundFailure ((Monitor.connect (initMonitor 1 10000 500) none).1)
        { id := 0, mode := RoundMode.viaConnect, cancelled := false } 5 true
        ServerType.primary).1.timers.map (fun t => t.delay) = [none]) ∧
    ((completeRoundFailure ((Monitor.connect (initMonitor 1 10000 500) none).1)
        { id := 0, mode := RoundMode.viaConnect, cancelled := false } 5 true
        ServerType.unknown).1.timers.map (fun t => t.delay) = [some 10000]) ∧
    ((completeRoundSuccess ((Monitor.connect (initMonitor 1 10000 500) none).1)
        { id := 0, mode := RoundMode.viaConnect, cancelled := false } 5
        { topologyVersion := some { processId := 7, counter := 1 } }
        ServerType.primary).1.timers.map (fun t => t.delay) = [none]) ∧
    ((completeRoundSuccess ((Monitor.connect (initMonitor 1 10000 500) none).1)
        { id := 0, mode := RoundMode.viaConnect, cancelled := false } 5
        { topologyVersion := none }
        ServerType.primary).1.timers.map (fun t => t.delay) = [some 10000]) := by
  have h1 := C2_terminal_scheduling ((Monitor.connect (initMonitor 1 10000 500) none).1)
    { id := 0, mode := RoundMode.viaConnect, cancelled := false } 5 true ServerType.primary
    { topologyVersion := some { processId := 7, counter := 1 } } (by decide) (by decide)
  have h2 := C2_terminal_scheduling ((Monitor.connect (initMonitor 1 10000 500) none).1)
    { id := 0, mode := RoundMode.viaConnect, cancelled := false } 5 true ServerType.unknown
    { topologyVersion := none } (by decide) (by decide)
  exact ⟨h1.1 (by decide), h2.2.1 rfl, h1.2.2.1 (Or.inr rfl) (by decide),
    h2.2.2.2 (Or.inr rfl) rfl⟩

/-! ## Claim C3 -/

/-- C3 counterexample: in the idle state with no stored timer id and
more than `minHeartbeatFrequencyMS` remaining, `requestCheck()` starts a
round immediately instead of rescheduling — the branch also requires the
`kMonitorId` field to hold a timer id.  This configuration is the normal
one inside the fired reschedule-timer callback, which clears the field
before calling `requestCheck`. -/
theorem C3_counterexample : ¬ C3ClaimAsStated := by
  intro h
  have h2 := h { initMonitor 1 10000 500 with state := MState.idle, lastCheckTime := some 0 }
    600 none rfl (by decide)
  exact absurd h2.2 (by decide)

/-- C3 (amended): outside the closing, closed and monitoring states,
`requestCheck()` reschedules the timer to `minHeartbeatFrequencyMS` only
when more than `minHeartbeatFrequencyMS` remains AND the `kMonitorId`
field holds a timer id; otherwise (including when no timer id is
stored) it cancels and starts a round immediately; in the closing,
closed and monitoring states it does nothing. -/
theorem C3_requestCheck (m : Monitor) (now : Nat) (tv : Option TopologyVersion)
    (hA : ∀ t ∈ m.timers, m.monitorId = some t.id) :
    (m.state = MState.idle →
      (((m.heartbeatFrequencyMS : Int) - (calculateDurationInMs now m.lastCheckTime : Int) >
          (m.minHeartbeatFrequencyMS : Int) ∧ m.monitorId.isSome = true) →
        (Monitor.requestCheck m now tv).1.timers.map (fun t => t.delay) =
            [some m.minHeartbeatFrequencyMS] ∧
          (Monitor.requestCheck m now tv).1.rounds = m.rounds ∧
          (Monitor.requestCheck m now tv).1.state = MState.idle) ∧
      (¬((m.heartbeatFrequencyMS : Int) - (calculateDurationInMs now m.lastCheckTime : Int) >
          (m.minHeartbeatFrequencyMS : Int) ∧ m.monitorId.isSome = true) →
        (Monitor.requestCheck m now tv).1.state = MState.monitoring ∧
          (Monitor.requestCheck m now tv).1.timers = [] ∧
          (Monitor.requestCheck m now tv).1.rounds =
            m.rounds ++
              [{ id := m.nextRoundId,
                 mode := if m.conn.isSome then RoundMode.viaCommand tv.isSome
                         else RoundMode.viaConnect,
                 cancelled := false }])) ∧
    ((m.state = MState.closing ∨ m.state = MState.closed ∨ m.state = MState.monitoring) →
      Monitor.requestCheck m now tv = (m, [])) := by
  constructor
  · intro hIdle
    have hguard : ¬(m.state = MState.closing ∨ m.state = MState.closed ∨
        m.state = MState.monitoring) := by
      rw [hIdle]; decide
    constructor
    · intro hc
      simp only [Monitor.requestCheck]
      rw [if_neg hguard, if_pos hc, jsClearTimeout_eq m hA,
        rescheduleMonitoring_eq { m with timers := [] } now (some m.minHeartbeatFrequencyMS)
          (Or.inl hIdle) (by simp)]
      exact ⟨rfl, rfl, rfl⟩
    · intro hc
      simp only [Monitor.requestCheck]
      rw [if_neg hguard, if_neg hc, jsClearTimeout_eq m hA,
        monitorServer_fst _ tv (by rw [hIdle] at hguard ⊢; decide)]
      exact ⟨rfl, rfl, rfl⟩
  · intro h
    simp only [Monitor.requestCheck]
    rw [if_pos h]

/-- C3 witness: the rate-limit branch at a concrete idle monitor with a
stored timer id, and the immediate branch at the same monitor without
one. -/
theorem C3_witness :
    ((Monitor.requestCheck { initMonitor 1 10000 500 with
        state := MState.idle,
        monitorId := some 7,
        timers := [{ id := 7, kind := TimerKind.reschedule, delay := some 10000 }],
        nextTimerId := 8,
        lastCheckTime := some 0 } 600 none).1.timers.map (fun t => t.delay) =
      [some 500]) ∧
    ((Monitor.requestCheck { initMonitor 1 10000 500 with
        state := MState.idle,
        lastCheckTime := some 0 } 600 none).1.state = MState.monitoring) := by
  constructor
  · exact (((C3_requestCheck { initMonitor 1 10000 500 with
      state := MState.idle,
      monitorId := some 7,
      timers := [{ id := 7, kind := TimerKind.reschedule, delay := some 10000 }],
      nextTimerId := 8,
      lastCheckTime := some 0 } 600 none (by decide)).1 rfl).1 (by decide)).1
  · exact (((C3_requestCheck { initMonitor 1 10000 500 with
      state := MState.idle,
      lastCheckTime := some 0 } 600 none (by decide)).1 rfl).2 (by decide)).1

/-! ## Claim C4 -/

/-- The state transition never touches the connection field. -/
theorem stateTransition_conn (m : Monitor) (ns : MState) :
    (stateTransition m ns).conn = m.conn := by
  unfold stateTransition
  split <;> rfl

/-- Clearing a timer never touches the connection field. -/
theorem jsClearTimeout_conn (m : Monitor) (i : Option Nat) :
    (jsClearTimeout m i).conn = m.conn := by
  unfold jsClearTimeout
  cases i <;> rfl

/-- Rescheduling never touches the connection field. -/
theorem rescheduleMonitoring_conn (m : Monitor) (now : Nat) (ms : Option Nat) :
    (rescheduleMonitoring m now ms).conn = m.conn := by
  unfold rescheduleMonitoring
  split
  · rfl
  · show (jsClearTimeout (stateTransition m MState.idle)
        (stateTransition m MState.idle).monitorId).conn = m.conn
    rw [jsClearTimeout_conn, stateTransition_conn]

/-- The `monitorServer` callback never touches the connection field. -/
theorem monitorServerCallback_conn (m : Monitor) (now : Nat) (err : Bool) (st : ServerType)
    (im : Option IsMasterReply) :
    (monitorServerCallback m now err st im).conn = m.conn := by
  rcases monitorServerCallback_exists m now err st im with h | h <;>
    rw [h, rescheduleMonitoring_conn]

/-- C4 counterexample: a round that fails while establishing the
connection emits the invalidate-pool event even for a non-network error
(the connect error path emits it for non-network errors before
`failureHandler` emits it for network errors), so pool invalidation is
not equivalent to the error being network-level. -/
theorem C4_counterexample : ¬ C4ClaimAsStated := by
  intro h
  have h2 := (h ((Monitor.connect (initMonitor 1 10000 500) none).1)
    { id := 0, mode := RoundMode.viaConnect, cancelled := false } 5 false ServerType.primary
    (by decide)).mp (by decide)
  exact absurd h2 (by decide)

/-- C4 (amended): a failing round always emits the round-failed and
invalidate-server events; on the command path it forcibly destroys the
private connection and clears the field; and it emits the
invalidate-pool event exactly when the error is a network error or the
round was in the connection-establishment path (which always invalidates
the pool). -/
theorem C4_failure_effects (m : Monitor) (r : Round) (now : Nat) (networkErr : Bool)
    (st : ServerType) (h : r ∈ m.rounds) :
    MAction.emitHeartbeatFailed ∈ (completeRoundFailure m r now networkErr st).2 ∧
    MAction.emitResetServer ∈ (completeRoundFailure m r now networkErr st).2 ∧
    (MAction.emitResetConnectionPool ∈ (completeRoundFailure m r now networkErr st).2 ↔
      (networkErr = true ∨ r.mode = RoundMode.viaConnect)) ∧
    (∀ aw, r.mode = RoundMode.viaCommand aw → m.conn.isSome = true →
      MAction.destroyConnection true ∈ (completeRoundFailure m r now networkErr st).2) ∧
    (completeRoundFailure m r now networkErr st).1.conn = none := by
  obtain ⟨rid, rmode, rcan⟩ := r
  refine ⟨?_, ?_, ?_, ?_, ?_⟩
  · cases rmode with
    | viaConnect =>
      cases networkErr <;> simp [completeRoundFailure, failureHandler]
    | viaCommand aw =>
      cases hc : m.conn <;> cases networkErr <;>
        simp [completeRoundFailure, failureHandler, hc]
  · cases rmode with
    | viaConnect =>
      cases networkErr <;> simp [completeRoundFailure, failureHandler]
    | viaCommand aw =>
      cases hc : m.conn <;> cases networkErr <;>
        simp [completeRoundFailure, failureHandler, hc]
  · cases rmode with
    | viaConnect =>
      cases networkErr <;> simp [completeRoundFailure, failureHandler]
    | viaCommand aw =>
      cases hc : m.conn <;> cases networkErr <;>
        simp [completeRoundFailure, failureHandler, hc]
  · intro aw haw hcs
    cases haw
    rcases Option.isSome_iff_exists.mp hcs with ⟨d, hc⟩
    cases networkErr <;> simp [completeRoundFailure, failureHandler, hc]
  · rw [completeRoundFailure_fst, monitorServerCallback_conn]

/-- C4 witness: the failure effects at a concrete command-path round
(forced destroy, field cleared, no pool invalidation for a non-network
error on that path is reflected by the equivalence) and at a concrete
connect-path round (pool invalidated even for a non-network error). -/
theorem C4_witness :
    MAction.emitHeartbeatFailed ∈ (completeRoundFailure { initMonitor 1 10000 500 with
        state := MState.monitoring,
        conn := some false,
        rounds := [{ id := 0, mode := RoundMode.viaCommand false, cancelled := false }],
        nextRoundId := 1 } { id := 0, mode := RoundMode.viaCommand false, cancelled := false }
        5 false ServerType.primary).2 ∧
    MAction.destroyConnection true ∈ (completeRoundFailure { initMonitor 1 10000 500 with
        state := MState.monitoring,
        conn := some false,
        rounds := [{ id := 0, mode := RoundMode.viaCommand false, cancelled := false }],
        nextRoundId := 1 } { id := 0, mode := RoundMode.viaCommand false, cancelled := false }
        5 false ServerType.primary).2 ∧
    (completeRoundFailure { initMonitor 1 10000 500 with
        state := MState.monitoring,
        conn := some false,
        rounds := [{ id := 0, mode := RoundMode.viaCommand false, cancelled := false }],
        nextRoundId := 1 } { id := 0, mode := RoundMode.viaCommand false, cancelled := false }
        5 false ServerType.primary).1.conn = none ∧
    MAction.emitResetConnectionPool ∈
      (completeRoundFailure ((Monitor.connect (initMonitor 1 10000 500) none).1)
        { id := 0, mode := RoundMode.viaConnect, cancelled := false }
        5 false ServerType.primary).2 := by
  have h1 := C4_failure_effects { initMonitor 1 10000 500 with
    state := MState.monitoring,
    conn := some false,
    rounds := [{ id := 0, mode := RoundMode.viaCommand false, cancelled := false }],
    nextRoundId := 1 } { id := 0, mode := RoundMode.viaCommand false, cancelled := false }
    5 false ServerType.primary (by decide)
  have h2 := C4_failure_effects ((Monitor.connect (initMonitor 1 10000 500) none).1)
    { id := 0, mode := RoundMode.viaConnect, cancelled := false } 5 false ServerType.primary
    (by decide)
  exact ⟨h1.1, h1.2.2.2.1 false rfl (by decide), h1.2.2.2.2, h2.2.2.1.mpr (Or.inr rfl)⟩

/-! ## Claim C5 -/

/-- C5: with a private connection present the round goes through the
command path and is awaitable exactly when the last known topology
version is non-null; an awaitable command carries
`maxAwaitTimeMS = heartbeatFrequencyMS` and the topology version, with
socket timeout `connectTimeoutMS + heartbeatFrequencyMS` and exhaust
responses allowed; without a topology version the command is a plain
one-shot with socket timeout `connectTimeoutMS`; without a connection
the round goes through the connect path. -/
theorem C5_streaming_mode (m : Monitor) (tv : Option TopologyVersion) :
    (m.conn.isSome = true →
      (checkServerStart m tv).1.rounds =
        m.rounds ++
          [{ id := m.nextRoundId, mode := RoundMode.viaCommand tv.isSome,
             cancelled := false }]) ∧
    (m.conn.isSome = false →
      (checkServerStart m tv).1.rounds =
        m.rounds ++
          [{ id := m.nextRoundId, mode := RoundMode.viaConnect,
             cancelled := false }]) ∧
    (∀ v, tv = some v →
      checkServerCmd m tv =
        ({ maxAwaitTimeMS := some m.heartbeatFrequencyMS, topologyVersion := some v },
         { socketTimeout := m.connectTimeoutMS + m.heartbeatFrequencyMS,
           exhaustAllowed := true })) ∧
    (tv = none →
      checkServerCmd m tv =
        ({ maxAwaitTimeMS := none, topologyVersion := none },
         { socketTimeout := m.connectTimeoutMS, exhaustAllowed := false })) := by
  refine ⟨?_, ?_, ?_, ?_⟩
  · intro hc
    simp [checkServerStart, hc]
  · intro hc
    simp [checkServerStart, hc]
  · intro v hv
    subst hv
    rfl
  · intro hv
    subst hv
    rfl

/-- C5 witness: the streaming command and the plain command at a
concrete monitor with a private connection. -/
theorem C5_witness :
    ((checkServerStart { initMonitor 30000 10000 500 with conn := some false }
        (some { processId := 7, counter := 42 })).1.rounds =
      [{ id := 0, mode := RoundMode.viaCommand true, cancelled := false }]) ∧
    (checkServerCmd { initMonitor 30000 10000 500 with conn := some false }
        (some { processId := 7, counter := 42 }) =
      ({ maxAwaitTimeMS := some 10000,
         topologyVersion := some { processId := 7, counter := 42 } },
       { socketTimeout := 40000, exhaustAllowed := true })) ∧
    (checkServerCmd { initMonitor 30000 10000 500 with conn := some false } none =
      ({ maxAwaitTimeMS := none, topologyVersion := none },
       { socketTimeout := 30000, exhaustAllowed := false })) := by
  refine ⟨?_, ?_, ?_⟩
  · exact (C5_streaming_mode { initMonitor 30000 10000 500 with conn := some false }
      (some { processId := 7, counter := 42 })).1 rfl
  · exact (C5_streaming_mode { initMonitor 30000 10000 500 with conn := some false }
      (some { processId := 7, counter := 42 })).2.2.1 { processId := 7, counter := 42 } rfl
  · exact (C5_streaming_mode { initMonitor 30000 10000 500 with conn := some false }
      none).2.2.2 rfl

/-! ## Claim C6 -/

/-- C6 counterexample: over the public call sequence connect, close,
connect the final monitor has two rounds in flight — `close()` cancels
the first round but its completion is asynchronous, and the immediate
`connect()` starts a second round before the first one has wound down. -/
theorem C6_counterexample : ¬ C6ClaimAsStated := by
  intro h
  have h2 := h 1 2 3 [PublicOp.opConnect none, PublicOp.opClose, PublicOp.opConnect none]
  exact absurd h2 (by decide)

/-- The invariant holds after `rescheduleMonitoring` from idle or
monitoring with the field discipline and no round in flight. -/
theorem inv_rescheduleMonitoring (m : Monitor) (now : Nat) (ms : Option Nat)
    (h : m.state = MState.idle ∨ m.state = MState.monitoring)
    (hA : ∀ t ∈ m.timers, m.monitorId = some t.id)
    (hr : m.rounds = []) :
    MonInv (rescheduleMonitoring m now ms) := by
  rw [rescheduleMonitoring_eq m now ms h hA]
  refine ⟨?_, ?_, ?_, ?_, ?_, ?_, ?_, ?_⟩ <;> simp [hr]

/-- The invariant holds after the `monitorServer` callback from idle or
monitoring with the field discipline and no round in flight. -/
theorem inv_monitorServerCallback (m : Monitor) (now : Nat) (err : Bool) (st : ServerType)
    (im : Option IsMasterReply)
    (h : m.state = MState.idle ∨ m.state = MState.monitoring)
    (hA : ∀ t ∈ m.timers, m.monitorId = some t.id)
    (hr : m.rounds = []) :
    MonInv (monitorServerCallback m now err st im) := by
  rcases monitorServerCallback_exists m now err st im with he | he <;> rw [he] <;>
    exact inv_rescheduleMonitoring m now _ h hA hr

/-- The invariant holds after `monitorServer` starts a round from the
closed or idle state with nothing armed and nothing in flight. -/
theorem inv_monitorServer (m : Monitor) (tv : Option TopologyVersion)
    (h : m.state = MState.closed ∨ m.state = MState.idle)
    (ht : m.timers = []) (hr : m.rounds = []) :
    MonInv (monitorServer m tv).1 := by
  have hlegal : MState.monitoring ∈ legalTransitions m.state := by
    rcases h with h | h <;> rw [h] <;> decide
  rw [monitorServer_fst m tv hlegal]
  refine ⟨?_, ?_, ?_, ?_, ?_, ?_, ?_, ?_⟩ <;> simp [ht, hr]

/-- Under the invariant, no round is in flight outside the monitoring
state. -/
theorem inv_rounds_empty (m : Monitor) (hInv : MonInv m)
    (hst : m.state ≠ MState.monitoring) : m.rounds = [] := by
  cases hr : m.rounds with
  | nil => rfl
  | cons r rs =>
    exact absurd (hInv.roundsState (by rw [hr]; simp)) hst

/-- `connect()` preserves the invariant. -/
theorem inv_connect (m : Monitor) (tv : Option TopologyVersion) (hInv : MonInv m) :
    MonInv (Monitor.connect m tv).1 := by
  by_cases hst : m.state = MState.closed
  · simp only [Monitor.connect]
    rw [if_neg (by simp [hst])]
    exact inv_monitorServer m tv (Or.inl hst) (hInv.closedQuiet hst).1 (hInv.closedQuiet hst).2
  · simp only [Monitor.connect]
    rw [if_pos hst]
    exact hInv

/-- `requestCheck()` preserves the invariant. -/
theorem inv_requestCheck (m : Monitor) (now : Nat) (tv : Option TopologyVersion)
    (hInv : MonInv m) : MonInv (Monitor.requestCheck m now tv).1 := by
  by_cases hg : m.state = MState.closing ∨ m.state = MState.closed ∨
      m.state = MState.monitoring
  · simp only [Monitor.requestCheck]
    rw [if_pos hg]
    exact hInv
  · have hst : m.state = MState.idle := by
      cases h : m.state <;> simp [h] at hg ⊢
    have hr : m.rounds = [] := inv_rounds_empty m hInv (by rw [hst]; decide)
    simp only [Monitor.requestCheck]
    rw [if_neg hg]
    by_cases hc : ((m.heartbeatFrequencyMS : Int) -
        (calculateDurationInMs now m.lastCheckTime : Int) >
          (m.minHeartbeatFrequencyMS : Int) ∧ m.monitorId.isSome = true)
    · rw [if_pos hc, jsClearTimeout_eq m hInv.timersField]
      exact inv_rescheduleMonitoring { m with timers := [] } now
        (some m.minHeartbeatFrequencyMS) (Or.inl hst) (by simp) hr
    · rw [if_neg hc, jsClearTimeout_eq m hInv.timersField]
      exact inv_monitorServer { m with timers := [] } tv (Or.inr hst) rfl hr

/-- Completing a round with a failure preserves the invariant. -/
theorem inv_completeFailure (m : Monitor) (r : Round) (now : Nat) (nw : Bool)
    (st : ServerType) (hInv : MonInv m) (h : r ∈ m.rounds) :
    MonInv (completeRoundFailure m r now nw st).1 := by
  have hst : m.state = MState.monitoring :=
    hInv.roundsState (by intro he; rw [he] at h; cases h)
  have hsing : m.rounds = [r] := eq_singleton_of_mem_len_le_one h hInv.roundsLen
  have hfil : m.rounds.filter (fun x => decide (x.id ≠ r.id)) = [] := by
    rw [hsing]; simp
  rw [completeRoundFailure_fst]
  exact inv_monitorServerCallback
    { m with rounds := m.rounds.filter (fun x => decide (x.id ≠ r.id)), conn := none }
    now true st none (Or.inr hst) hInv.timersField hfil

/-- Completing a round with a success preserves the invariant. -/
theorem inv_completeSuccess (m : Monitor) (r : Round) (now : Nat) (reply : IsMasterReply)
    (st : ServerType) (hInv : MonInv m) (h : r ∈ m.rounds) :
    MonInv (completeRoundSuccess m r now reply st).1 := by
  have hst : m.state = MState.monitoring :=
    hInv.roundsState (by intro he; rw [he] at h; cases h)
  have hsing : m.rounds = [r] := eq_singleton_of_mem_len_le_one h hInv.roundsLen
  have hfil : m.rounds.filter (fun x => decide (x.id ≠ r.id)) = [] := by
    rw [hsing]; simp
  cases hm : r.mode with
  | viaConnect =>
    rw [completeRoundSuccess_conn m r now reply st hm]
    exact inv_monitorServerCallback
      { m with rounds := m.rounds.filter (fun x => decide (x.id ≠ r.id)),
               conn := some false }
      now false st (some reply) (Or.inr hst) hInv.timersField hfil
  | viaCommand aw =>
    cases aw with
    | true =>
      rw [completeRoundSuccess_stream m r now reply st hm]
      exact hInv
    | false =>
      rw [completeRoundSuccess_cmd m r now reply st hm]
      exact inv_monitorServerCallback
        { m with rounds := m.rounds.filter (fun x => decide (x.id ≠ r.id)) }
        now false st (some reply) (Or.inr hst) hInv.timersField hfil

/-- Firing an armed timer preserves the invariant. -/
theorem inv_fire (m : Monitor) (t : Timer) (now : Nat) (tv : Option TopologyVersion)
    (hInv : MonInv m) (ht : t ∈ m.timers) : MonInv (fireTimer m t now tv).1 := by
  have hst : m.state = MState.idle := by
    cases h : m.state with
    | closed =>
      have h2 := (hInv.closedQuiet h).1
      rw [h2] at ht
      cases ht
    | closing => exact absurd h hInv.notClosing
    | idle => rfl
    | monitoring =>
      have h2 := hInv.monitoringTimers h
      rw [h2] at ht
      cases ht
  have hsing : m.timers = [t] := eq_singleton_of_mem_len_le_one ht hInv.timersLen
  have hr : m.rounds = [] := inv_rounds_empty m hInv (by rw [hst]; decide)
  obtain ⟨tid, tkind, tdel⟩ := t
  have hfil : m.timers.filter (fun x => decide (x.id ≠ tid)) = [] := by
    rw [hsing]; simp
  cases tkind with
  | reschedule =>
    simp only [fireTimer]
    refine inv_requestCheck _ now tv ?_
    refine ⟨?_, ?_, ?_, ?_, ?_, ?_, ?_, ?_⟩ <;> simp [hsing, hr, hst]
  | fromReset =>
    simp only [fireTimer]
    refine inv_requestCheck _ now tv ?_
    refine ⟨?_, ?_, ?_, ?_, ?_, ?_, ?_, ?_⟩ <;> simp [hsing, hr, hst]

/-- `reset()` followed by the prompt completion of the round it
cancelled preserves the invariant. -/
theorem inv_reset_drain (m : Monitor) (now : Nat) (nw : Bool) (st : ServerType)
    (hInv : MonInv m) : MonInv (drainRound (Monitor.reset m).1 now nw st) := by
  cases hst : m.state with
  | closed =>
    have hq := hInv.closedQuiet hst
    simp only [Monitor.reset]
    rw [if_pos (Or.inl hst)]
    have hd : drainRound m now nw st = m := by
      unfold drainRound
      rw [hq.2]
    rw [hd]
    exact hInv
  | closing => exact absurd hst hInv.notClosing
  | idle =>
    rw [reset_fst m (Or.inl hst) hInv.timersField]
    cases hr : m.rounds with
    | nil =>
      simp only [drainRound, hr, List.map_nil]
      refine ⟨?_, ?_, ?_, ?_, ?_, ?_, ?_, ?_⟩ <;> simp [hr]
    | cons r rs =>
      have hrs : rs = [] := by
        have hlen := hInv.roundsLen
        rw [hr] at hlen
        simpa using hlen
      subst hrs
      simp only [drainRound, hr, List.map_cons, List.map_nil]
      rw [completeRoundFailure_fst]
      refine inv_monitorServerCallback _ now true st none (Or.inl ?_) ?_ ?_
      · rfl
      · intro x hx
        simp at hx
        rw [hx]
      · simp
  | monitoring =>
    rw [reset_fst m (Or.inr hst) hInv.timersField]
    cases hr : m.rounds with
    | nil =>
      simp only [drainRound, hr, List.map_nil]
      refine ⟨?_, ?_, ?_, ?_, ?_, ?_, ?_, ?_⟩ <;> simp [hr]
    | cons r rs =>
      have hrs : rs = [] := by
        have hlen := hInv.roundsLen
        rw [hr] at hlen
        simpa using hlen
      subst hrs
      simp only [drainRound, hr, List.map_cons, List.map_nil]
      rw [completeRoundFailure_fst]
      refine inv_monitorServerCallback _ now true st none (Or.inl ?_) ?_ ?_
      · rfl
      · intro x hx
        simp at hx
        rw [hx]
      · simp

/-- The `monitorServer` callback is the identity once the monitor is
closing or closed. -/
theorem monitorServerCallback_closed (m : Monitor) (now : Nat) (err : Bool) (st : ServerType)
    (im : Option IsMasterReply)
    (h : m.state = MState.closing ∨ m.state = MState.closed) :
    monitorServerCallback m now err st im = m := by
  rcases monitorServerCallback_exists m now err st im with he | he <;>
    rw [he, rescheduleMonitoring_closed m now _ h]

/-- `close()` followed by the prompt completion of the round it
cancelled preserves the invariant. -/
theorem inv_close_drain (m : Monitor) (now : Nat) (nw : Bool) (st : ServerType)
    (hInv : MonInv m) : MonInv (drainRound (Monitor.close m).1 now nw st) := by
  cases hst : m.state with
  | closed =>
    have hq := hInv.closedQuiet hst
    simp only [Monitor.close]
    rw [if_pos (Or.inl hst)]
    have hd : drainRound m now nw st = m := by
      unfold drainRound
      rw [hq.2]
    rw [hd]
    exact hInv
  | closing => exact absurd hst hInv.notClosing
  | idle =>
    rw [close_fst m (Or.inl hst) hInv.timersField]
    cases hr : m.rounds with
    | nil =>
      simp only [drainRound, hr, List.map_nil]
      refine ⟨?_, ?_, ?_, ?_, ?_, ?_, ?_, ?_⟩ <;> simp [hr]
    | cons r rs =>
      have hrs : rs = [] := by
        have hlen := hInv.roundsLen
        rw [hr] at hlen
        simpa using hlen
      subst hrs
      simp only [drainRound, hr, List.map_cons, List.map_nil]
      rw [completeRoundFailure_fst, monitorServerCallback_closed]
      · refine ⟨?_, ?_, ?_, ?_, ?_, ?_, ?_, ?_⟩ <;> simp
      · exact Or.inr rfl
  | monitoring =>
    rw [close_fst m (Or.inr hst) hInv.timersField]
    cases hr : m.rounds with
    | nil =>
      simp only [drainRound, hr, List.map_nil]
      refine ⟨?_, ?_, ?_, ?_, ?_, ?_, ?_, ?_⟩ <;> simp [hr]
    | cons r rs =>
      have hrs : rs = [] := by
        have hlen := hInv.roundsLen
        rw [hr] at hlen
        simpa using hlen
      subst hrs
      simp only [drainRound, hr, List.map_cons, List.map_nil]
      rw [completeRoundFailure_fst, monitorServerCallback_closed]
      · refine ⟨?_, ?_, ?_, ?_, ?_, ?_, ?_, ?_⟩ <;> simp
      · exact Or.inr rfl

/-- The scheduling invariant holds in every reachable monitor state. -/
theorem monInv_of_reachable (m : Monitor) (h : Reachable m) : MonInv m := by
  induction h with
  | init cto hbf minHbf =>
    refine ⟨?_, ?_, ?_, ?_, ?_, ?_, ?_, ?_⟩ <;> simp [initMonitor]
  | step _ hs ih =>
    cases hs with
    | sConnect tv => exact inv_connect _ tv ih
    | sRequestCheck now tv => exact inv_requestCheck _ now tv ih
    | sReset now networkErr st => exact inv_reset_drain _ now networkErr st ih
    | sClose now networkErr st => exact inv_close_drain _ now networkErr st ih
    | sFire t now tv ht => exact inv_fire _ t now tv ih ht
    | sCompleteFailure r now networkErr st hr =>
      exact inv_completeFailure _ r now networkErr st ih hr
    | sCompleteSuccess r now reply st hr =>
      exact inv_completeSuccess _ r now reply st ih hr

/-- C6 (amended): in every reachable monitor state — public operations,
timer firings and round completions interleaved arbitrarily, except that
a round cancelled by `reset()`/`close()` completes before the next
operation as the concurrency model of the spec requires — at most one
timer is armed and at most one heartbeat round is in flight.  Without
the promptness proviso the round half fails: `connect()` immediately
after `close()` overlaps two rounds. -/
theorem C6_single_timer_single_round (m : Monitor) (h : Reachable m) :
    m.timers.length ≤ 1 ∧ m.rounds.length ≤ 1 :=
  ⟨(monInv_of_reachable m h).timersLen, (monInv_of_reachable m h).roundsLen⟩

/-- C6 witness: the invariant at a concrete reachable state (a monitor
after `connect()`). -/
theorem C6_witness :
    ((Monitor.connect (initMonitor 1 10000 500) none).1).timers.length ≤ 1 ∧
      ((Monitor.connect (initMonitor 1 10000 500) none).1).rounds.length ≤ 1 :=
  C6_single_timer_single_round ((Monitor.connect (initMonitor 1 10000 500) none).1)
    (Reachable.step (Reachable.init 1 10000 500)
      (Step.sConnect (initMonitor 1 10000 500) none))
